import Mathlib

/-!
Verification of the conversational flow core of the Yaha_bot repository.

The Lean definitions below are a shallow embedding of the Python modules
`app/telegram/flows/{food,sleep,exercise}_flow.py`, `app/telegram/callbacks.py`,
`app/telegram/state.py`, `app/telegram/ux.py` and `app/gpt_fallback.py`.
Python dicts holding flow state are modelled as a record with the three keys
the code reads (`flow`, `step`, `data`); the `data` dict is an association
list with Python dict update semantics (replace in place, append when new).
Python numbers are modelled with ℤ for ints and, for floats, the exact
type `PyFloat` covering the full `float()` string grammar including nan
and the infinities; `None` is `Option.none`.  Handlers, which mutate state in place and return a
`(text, reply_markup, new_state)` tuple, become pure functions returning a
`Reply` record.
-/

namespace Yaha

/-- A Python float as produced by `float` on a string: an exact decimal
`finite num exp` with value `num / 10 ^ exp`, an infinity (`inf true` the
negative one), or `nan`.  Binary rounding is not modelled: finite values
are kept as exact decimals, kernel-computable and unnormalised, which
agrees with the program on every comparison the flows perform against
their small integer bounds. -/
inductive PyFloat where
  | finite : ℤ → ℕ → PyFloat
  | inf : Bool → PyFloat
  | nan : PyFloat
deriving DecidableEq, Repr

/-- Python float comparison `a <= b`: IEEE semantics, so nan compares
false to everything; finite values by cross multiplication. -/
def PyFloat.le : PyFloat → PyFloat → Bool
  | .finite a ea, .finite b eb => a * 10 ^ eb ≤ b * 10 ^ ea
  | .nan, _ => false
  | _, .nan => false
  | .inf n, .inf m => n || !m
  | .inf n, .finite _ _ => n
  | .finite _ _, .inf m => !m

/-- Python float comparison `a < b`: IEEE semantics, so nan compares
false to everything; finite values by cross multiplication. -/
def PyFloat.lt : PyFloat → PyFloat → Bool
  | .finite a ea, .finite b eb => a * 10 ^ eb < b * 10 ^ ea
  | .nan, _ => false
  | _, .nan => false
  | .inf n, .inf m => n && !m
  | .inf n, .finite _ _ => n
  | .finite _ _, .inf m => !m

/-- The float of a natural literal. -/
def PyFloat.ofNat (n : ℕ) : PyFloat := .finite n 0

/-- A Python value stored in a flow `data` dict: an int, a float, a string,
or (after timestamp attachment) a timezone-aware datetime, modelled as a day
index plus hour and minute. -/
inductive Val where
  | vint : ℤ → Val
  | vfloat : PyFloat → Val
  | vstr : String → Val
  | vts : ℤ → ℕ → ℕ → Val
deriving DecidableEq, Repr

/-- Python truthiness of a value (0, 0.0 and the empty string are falsy;
nan and the infinities are truthy). -/
def Val.truthy : Val → Bool
  | .vint z => z != 0
  | .vfloat (.finite n _) => n != 0
  | .vfloat _ => true
  | .vstr s => s != ""
  | .vts _ _ _ => true

/-- Truthiness of an optional value (`None` is falsy). -/
def optTruthy : Option Val → Bool
  | none => false
  | some v => v.truthy

/-- The `data` dict of a flow state: keys mapped to values or `None`.
Absent keys and keys stored as `None` are both read back as `none` by
`dget`, matching how the code only ever uses `dict.get`. -/
abbrev Data := List (String × Option Val)

/-- Python `d.get(k)`: first binding wins (keys are unique by construction). -/
def dget : Data → String → Option Val
  | [], _ => none
  | (k2, v2) :: rest, k => if k2 = k then v2 else dget rest k

/-- Python `d[k] = v`: replace in place, append when the key is new. -/
def dset : Data → String → Option Val → Data
  | [], k, v => [(k, v)]
  | (k2, v2) :: rest, k, v =>
      if k2 = k then (k, v) :: rest else (k2, v2) :: dset rest k v


/-- A per-chat conversation state dict, restricted to the three keys the
code ever reads.  The empty Python dict `{}` is `emptyDict`. -/
structure StateDict where
  flow : Option String
  step : Option String
  data : Data
deriving DecidableEq, Repr

/-- The empty dict `{}` (falsy in Python). -/
def emptyDict : StateDict := ⟨none, none, []⟩

/-- Python truthiness of a state dict. -/
def StateDict.truthy (sd : StateDict) : Bool := sd != emptyDict

/-- One inline-keyboard button: display text and callback data. -/
abbrev Btn := String × String

/-- An inline keyboard: rows of buttons. -/
abbrev Markup := List (List Btn)

/-- Return contract of every flow handler: reply text, optional keyboard,
and the next state (`none` is terminal). -/
structure Reply where
  text : String
  markup : Option Markup
  next : Option StateDict
deriving DecidableEq, Repr

/-! Python primitive helpers shared by the modules.  All string operations
are implemented structurally over `List Char` so that every definition is
kernel-computable. -/

/-- Strip leading whitespace. -/
def dropWs (cs : List Char) : List Char := cs.dropWhile (·.isWhitespace)

/-- Python `str.strip()` on a character list. -/
def trimL (cs : List Char) : List Char := (dropWs (dropWs cs).reverse).reverse

/-- Python `str.strip()`. -/
def pyStrip (s : String) : String := String.mk (trimL s.data)

/-- Python `str.lower()` (ASCII, which is all this codebase feeds it). -/
def pyLower (s : String) : String := String.mk (s.data.map Char.toLower)

/-- Python `str.startswith`. -/
def isPre : List Char → List Char → Bool
  | [], _ => true
  | _ :: _, [] => false
  | p :: ps, c :: cs => p == c && isPre ps cs

/-- Python `str.startswith` on strings. -/
def pyStarts (s p : String) : Bool := isPre p.data s.data

/-- Python `str.removeprefix`. -/
def dropPre (s p : String) : String :=
  if pyStarts s p then String.mk (s.data.drop p.data.length) else s

/-- Split a character list at every occurrence of a separator character. -/
def splitOnChar (sep : Char) : List Char → List (List Char)
  | [] => [[]]
  | c :: rest =>
      match splitOnChar sep rest with
      | [] => [[]]
      | g :: gs => if c == sep then [] :: g :: gs else (c :: g) :: gs

/-- Python `"sep".join(lines)` for newline-joined previews. -/
def joinLines (ls : List String) : String :=
  String.mk (List.intercalate ['\n'] (ls.map String.data))

/-- Numeric value of a list of decimal digit characters. -/
def digitsVal (cs : List Char) : ℕ :=
  cs.foldl (fun a c => a * 10 + (c.toNat - 48)) 0

/-- Split at the first character satisfying `p`: the part before it and,
when found, the remainder after it. -/
def splitFirst (p : Char → Bool) : List Char → List Char × Option (List Char)
  | [] => ([], none)
  | c :: rest =>
      if p c then ([], some rest)
      else
        let (a, b) := splitFirst p rest
        (c :: a, b)

/-- Continuation of a PEP 515 digit part, `(['_'] digit)*`: an underscore
must sit between two digits.  Returns the digits without underscores. -/
def dpRest : List Char → Option (List Char)
  | [] => some []
  | '_' :: rest =>
      match rest with
      | c :: rs => if c.isDigit then (dpRest rs).map (c :: ·) else none
      | [] => none
  | c :: rest => if c.isDigit then (dpRest rest).map (c :: ·) else none

/-- A PEP 515 digit part, `digit (['_'] digit)*`, returned without its
underscores. -/
def digitPartClean? : List Char → Option (List Char)
  | [] => none
  | c :: rest => if c.isDigit then (dpRest rest).map (c :: ·) else none

/-- The mantissa of a float string: digit parts around an optional point,
at least one digit overall.  Returns the digits scaled to an integer and
the number of fractional digits. -/
def mantissaVal? (cs : List Char) : Option (ℕ × ℕ) :=
  let (ip, fp) := splitFirst (· == '.') cs
  match fp with
  | none => (digitPartClean? ip).map (fun ds => (digitsVal ds, 0))
  | some f =>
      let ipOk := ip.isEmpty || (digitPartClean? ip).isSome
      let fpOk := f.isEmpty || (digitPartClean? f).isSome
      if ipOk && fpOk && !(ip.isEmpty && f.isEmpty) then
        let intDs := (digitPartClean? ip).getD []
        let fracDs := (digitPartClean? f).getD []
        some (digitsVal intDs * 10 ^ fracDs.length + digitsVal fracDs, fracDs.length)
      else none

/-- The exponent part after `e` or `E`: an optional sign and a digit
part; absence of an exponent is exponent zero. -/
def expoVal? : Option (List Char) → Option ℤ
  | none => some 0
  | some cs =>
      let (sgn, cs) : ℤ × List Char :=
        match cs with
        | '-' :: rest => (-1, rest)
        | '+' :: rest => (1, rest)
        | _ => (1, cs)
      (digitPartClean? cs).map (fun ds => sgn * digitsVal ds)

/-- Python `float(text)` on a string: optional sign, then `inf`,
`infinity` or `nan` case-insensitively, or a decimal number with optional
fractional part and exponent and PEP 515 underscores between digits.
Leading and trailing whitespace is accepted, as in Python.  Finite values
are exact decimals: the double-precision rounding of extreme magnitudes
(and their overflow to an infinity) is not modelled. -/
def pyFloat? (s : String) : Option PyFloat :=
  let cs := trimL s.data
  let (neg, cs) : Bool × List Char :=
    match cs with
    | '-' :: rest => (true, rest)
    | '+' :: rest => (false, rest)
    | _ => (false, cs)
  let low := cs.map Char.toLower
  if low = ['i', 'n', 'f'] ∨ low = ['i', 'n', 'f', 'i', 'n', 'i', 't', 'y'] then
    some (.inf neg)
  else if low = ['n', 'a', 'n'] then some .nan
  else
    let (mant, ex) := splitFirst (fun c => c == 'e' || c == 'E') cs
    match mantissaVal? mant, expoVal? ex with
    | some (m, f), some e =>
        let sgn : ℤ := if neg then -1 else 1
        if (f : ℤ) ≤ e then some (.finite (sgn * m * 10 ^ (e - (f : ℤ)).toNat) 0)
        else some (.finite (sgn * m) (((f : ℤ) - e).toNat))
    | _, _ => none

/-- The `_parse_number` helper defined identically in all three flow
modules: strip, turn every decimal comma into a point, then `float`. -/
def parse_number (text : String) : Option PyFloat :=
  pyFloat? (String.mk ((trimL text.data).map (fun c => if c == ',' then '.' else c)))

/-- Python `int(text)` on a string: optional sign and digits. -/
def pyIntOfStr? (s : String) : Option ℤ :=
  let cs := trimL s.data
  let (sgn, cs) : ℤ × List Char :=
    match cs with
    | '-' :: rest => (-1, rest)
    | '+' :: rest => (1, rest)
    | _ => (1, cs)
  if cs.isEmpty || !cs.all (·.isDigit) then none
  else some (sgn * (digitsVal cs : ℕ))

/-- Python `int(x)` on a float: truncation toward zero on finite values.
On nan or an infinity Python raises (ValueError or OverflowError) instead
of returning; the embedding totalises those two cases to 0, so where the
program would crash and leave the state untouched, the model performs a
normal transition.  The reachability invariants hold over this larger
transition relation, and no claim statement below evaluates an `int`
conversion on nan or an infinity. -/
def pyTrunc : PyFloat → ℤ
  | .finite num exp => num.tdiv (10 ^ exp)
  | _ => 0

/-- Render a float the way Python `str` does for the values this codebase
puts into previews: shortest fractional part with at least one digit, nan
and the infinities by name.  (Python prints extreme magnitudes in exponent
notation; those never reach a rendered preview in the claims.) -/
def floatRepr : PyFloat → String
  | .nan => "nan"
  | .inf true => "-inf"
  | .inf false => "inf"
  | .finite num exp =>
      let sgn := if num < 0 then "-" else ""
      let n : ℕ := num.natAbs
      let d : ℕ := 10 ^ exp
      let ip : ℕ := n / d
      let rem : ℕ := n % d
      let k : ℕ :=
        ((List.range (exp + 1)).find? (fun k => 1 ≤ k && rem * 10 ^ k % d == 0)).getD 1
      let fn : ℕ := rem * 10 ^ k / d
      let ds := toString fn
      let pad := String.mk (List.replicate (k - ds.length) '0')
      sgn ++ toString ip ++ "." ++ pad ++ ds

/-- Python `str(x)` for values interpolated into preview lines. -/
def pyStr : Val → String
  | .vint z => toString z
  | .vfloat q => floatRepr q
  | .vstr s => s
  | .vts d h m => toString d ++ "T" ++ toString h ++ ":" ++ toString m

/-- Python `str.capitalize()`. -/
def pyCapitalize (s : String) : String :=
  match s.data with
  | [] => ""
  | c :: rest => String.mk (c.toUpper :: rest.map Char.toLower)

/-- Python `x or default` applied to an optional value and rendered by an
f-string: the value when truthy, the default string otherwise. -/
def strOr (v : Option Val) (dflt : String) : String :=
  match v with
  | some w => if w.truthy then pyStr w else dflt
  | none => dflt

/-- Food-flow handlers never assign `state["data"]` back; a mutation of the
local `data` dict is visible in the state only when the dict was aliased,
i.e. when `state.get("data")` was truthy.  `writeBack orig updated` is the
value the state holds afterwards. -/
def writeBack (orig updated : Data) : Data :=
  if orig.isEmpty then orig else updated

namespace FoodFlow

/-- Initial state of the food flow (`_base_state`). -/
def base_state : StateDict :=
  { flow := some "food"
    step := some "choose_meal_type"
    data := [("meal_name", none), ("calories", none), ("protein_g", none),
             ("carbs_g", none), ("fat_g", none), ("fiber_g", none),
             ("notes", none)] }

/-- Keyboard offered by the food entry point. -/
def startMarkup : Markup :=
  [[("Breakfast", "food_mealtype_breakfast"), ("Lunch", "food_mealtype_lunch")],
   [("Dinner", "food_mealtype_dinner"), ("Snack", "food_mealtype_snack")],
   [("Cancel ❌", "food_cancel")]]

/-- Entry point `start_food_flow`. -/
def start_food_flow : Reply :=
  ⟨"🍽 Let’s log a meal.\n\nFirst, what kind of meal is this?",
   some startMarkup, some base_state⟩

/-- Notes-choice keyboard shown after the macros decision. -/
def notesChoiceMarkup : Markup :=
  [[("Add notes ✍️", "food_notes_yes"), ("Skip", "food_notes_no")],
   [("Cancel ❌", "food_cancel")]]

/-- List of macro fragments of the preview, in source order. -/
def macroParts (data : Data) : List String :=
  (match dget data "calories" with
   | some v => [pyStr v ++ " kcal"] | none => []) ++
  (match dget data "protein_g" with
   | some v => [pyStr v ++ " g P"] | none => []) ++
  (match dget data "carbs_g" with
   | some v => [pyStr v ++ " g C"] | none => []) ++
  (match dget data "fat_g" with
   | some v => [pyStr v ++ " g F"] | none => []) ++
  (match dget data "fiber_g" with
   | some v => [pyStr v ++ " g fibre"] | none => [])

/-- Lines of the food preview (`_build_preview`), before joining. -/
def build_preview_lines (data : Data) : List String :=
  let meal_name := strOr (dget data "meal_name") "Meal"
  let meal_type := strOr (dget data "meal_type") "meal"
  let notes := dget data "notes"
  ["🍽 FOOD LOG (Preview)",
   "• Type: " ++ pyCapitalize meal_type,
   "• Name: " ++ meal_name] ++
  (if macroParts data ≠ [] then
    ["• Macros: " ++ String.mk (List.intercalate " | ".data ((macroParts data).map String.data))] else []) ++
  (if optTruthy notes then ["• Notes: " ++ pyStr (notes.getD (.vstr ""))] else []) ++
  ["", "Confirm to log this meal or cancel to discard it."]

/-- Confirm, edit and cancel keyboard of the food preview. -/
def previewMarkup : Markup :=
  [[("Confirm ✅", "food_confirm"), ("Edit ✏️", "food_edit")],
   [("Cancel ❌", "food_cancel")]]

/-- The food `_build_preview`: summary text plus keyboard. -/
def build_preview (data : Data) : String × Markup :=
  (joinLines (build_preview_lines data), previewMarkup)

/-- Button handler `handle_food_callback`, flattened from its source
if-chain; fall-through to the final reply is the catch-all. -/
def handle_food_callback (callback_data : String) (state : StateDict) : Reply :=
  let step := state.step
  let data := state.data
  if callback_data = "food_cancel" then
    ⟨"Okay, cancelled the food log.", none, none⟩
  else if step = some "choose_meal_type" ∧ pyStarts callback_data "food_mealtype_" then
    let meal_type := dropPre callback_data "food_mealtype_"
    let data2 := dset data "meal_type" (some (.vstr meal_type))
    ⟨"Got it: *" ++ pyCapitalize meal_type ++
      "*.\n\nWhat did you eat? You can type it in plain text (e.g. `oats with banana`) or something simple like `oats`.",
     none,
     some { state with step := some "await_description", data := writeBack data data2 }⟩
  else if step = some "ask_macros_choice" ∧ callback_data = "food_macros_yes" then
    ⟨"Okay, let’s add macros.\n\nFirst, how many *calories*?", none,
     some { state with step := some "await_calories" }⟩
  else if step = some "ask_macros_choice" ∧ callback_data = "food_macros_no" then
    ⟨"No problem, we’ll log it without macros.\n\nDo you want to add any notes? (e.g. hunger, cravings, digestion)",
     some notesChoiceMarkup,
     some { state with step := some "ask_notes_choice" }⟩
  else if step = some "ask_notes_choice" ∧ callback_data = "food_notes_yes" then
    ⟨"Okay, type any notes you want to store with this meal.", none,
     some { state with step := some "await_notes" }⟩
  else if step = some "ask_notes_choice" ∧ callback_data = "food_notes_no" then
    let pv := build_preview data
    ⟨pv.1, some pv.2, some { state with step := some "preview" }⟩
  else if step = some "preview" ∧ callback_data = "food_confirm" then
    ⟨"Logging your meal now…", none, some state⟩
  else if step = some "preview" ∧ callback_data = "food_edit" then
    ⟨"Let’s edit this meal.\n\nSend the description again (e.g. `oats with banana`).",
     none, some { state with step := some "await_description" }⟩
  else
    ⟨"I did not understand that option. Please continue or cancel.", none, some state⟩

/-- Keyboard asking whether to enter macros. -/
def macrosChoiceMarkup : Markup :=
  [[("Yes, enter macros", "food_macros_yes"), ("No, skip macros", "food_macros_no")],
   [("Cancel ❌", "food_cancel")]]

/-- Text handler `handle_food_text`. -/
def handle_food_text (text : String) (state : StateDict) : Reply :=
  let step := state.step
  let data := state.data
  if step = some "await_description" then
    let data2 := dset data "meal_name" (some (.vstr (pyStrip text)))
    ⟨"Meal description saved as:\n`" ++ pyStrip text ++
      "`\n\nDo you want to enter full macros (calories, protein, carbs, fat, fibre)?",
     some macrosChoiceMarkup,
     some { state with step := some "ask_macros_choice", data := writeBack data data2 }⟩
  else if step = some "await_calories" then
    match parse_number text with
    | none => ⟨"Please enter calories as a number (e.g. `520`).", none, some state⟩
    | some val =>
        let data2 := dset data "calories" (some (.vfloat val))
        ⟨"Protein in grams? (e.g. `32`)", none,
         some { state with step := some "await_protein", data := writeBack data data2 }⟩
  else if step = some "await_protein" then
    match parse_number text with
    | none => ⟨"Please enter protein as a number in grams (e.g. `32`).", none, some state⟩
    | some val =>
        let data2 := dset data "protein_g" (some (.vfloat val))
        ⟨"Carbs in grams? (e.g. `45`).", none,
         some { state with step := some "await_carbs", data := writeBack data data2 }⟩
  else if step = some "await_carbs" then
    match parse_number text with
    | none => ⟨"Please enter carbs as a number in grams (e.g. `45`).", none, some state⟩
    | some val =>
        let data2 := dset data "carbs_g" (some (.vfloat val))
        ⟨"Fat in grams? (e.g. `18`).", none,
         some { state with step := some "await_fat", data := writeBack data data2 }⟩
  else if step = some "await_fat" then
    match parse_number text with
    | none => ⟨"Please enter fat as a number in grams (e.g. `18`).", none, some state⟩
    | some val =>
        let data2 := dset data "fat_g" (some (.vfloat val))
        ⟨"Fibre in grams? (optional, you can also type `skip`).", none,
         some { state with step := some "await_fiber", data := writeBack data data2 }⟩
  else if step = some "await_fiber" then
    if pyLower (pyStrip text) = "skip" then
      let data2 := dset data "fiber_g" none
      ⟨"Do you want to add any notes? (e.g. hunger, cravings, digestion, context)",
       some notesChoiceMarkup,
       some { state with step := some "ask_notes_choice", data := writeBack data data2 }⟩
    else
      match parse_number text with
      | none =>
          ⟨"Please enter fibre as a number in grams (e.g. `8`) or type `skip`.",
           none, some state⟩
      | some val =>
          let data2 := dset data "fiber_g" (some (.vfloat val))
          ⟨"Do you want to add any notes? (e.g. hunger, cravings, digestion, context)",
           some notesChoiceMarkup,
           some { state with step := some "ask_notes_choice", data := writeBack data data2 }⟩
  else if step = some "await_notes" then
    let data2 := dset data "notes" (some (.vstr (pyStrip text)))
    let pv := build_preview data2
    ⟨pv.1, some pv.2,
     some { state with step := some "preview", data := writeBack data data2 }⟩
  else
    ⟨"I’m not sure where we are in the food flow. Let’s cancel and start again.",
     none, none⟩

end FoodFlow

namespace SleepFlow

/-- Initial state of the sleep flow (`_base_state`). -/
def base_state : StateDict :=
  { flow := some "sleep"
    step := some "ask_quality"
    data := [("sleep_score", none), ("duration_hr", none), ("energy_score", none),
             ("sleep_start", none), ("sleep_end", none), ("resting_hr", none),
             ("notes", none)] }

/-- Quality-bucket keyboard shown at entry and on edit. -/
def qualityMarkup : Markup :=
  [[("Terrible (0–40)", "sleep_q_20"), ("Okay (40–70)", "sleep_q_55")],
   [("Good (70–85)", "sleep_q_80"), ("Great (85–100)", "sleep_q_95")],
   [("Cancel ❌", "sleep_cancel")]]

/-- Entry point `start_sleep_flow`. -/
def start_sleep_flow : Reply :=
  ⟨"😴 Let’s log your sleep.\n\nFirst, how would you rate your sleep quality? (0–100)",
   some qualityMarkup, some base_state⟩

/-- Energy-bucket keyboard. -/
def energyMarkup : Markup :=
  [[("Very low (0–30)", "sleep_e_20"), ("Okay (30–60)", "sleep_e_45")],
   [("Good (60–80)", "sleep_e_70"), ("Great (80–100)", "sleep_e_90")]]

/-- Single-button skip keyboard used by the optional sleep steps. -/
def skipMarkup (tok : String) : Markup := [[("Skip ⏩", tok)]]

/-- Prompt and keyboard for the wake-time step. -/
def askEndText : String := "When did you wake up? (HH:MM, 24h)\nExample: 07:30"

/-- Prompt for the resting-heart-rate step. -/
def askRhrText : String :=
  "Resting heart rate on waking? (optional, bpm)\nType a number or tap Skip."

/-- Prompt for the notes step. -/
def askNotesText : String :=
  "Any notes about your sleep? (optional)\nType your note or tap Skip."

/-- The `_valid_time` helper: an HH:MM 24h string. -/
def valid_time (text : String) : Bool :=
  match splitOnChar ':' text.data with
  | [a, b] =>
      match pyIntOfStr? (String.mk a), pyIntOfStr? (String.mk b) with
      | some h, some m => decide (0 ≤ h ∧ h ≤ 23 ∧ 0 ≤ m ∧ m ≤ 59)
      | _, _ => false
  | _ => false

/-- Lines of the sleep preview (`_build_preview`), before joining. -/
def build_preview_lines (data : Data) : List String :=
  let sleep_start := strOr (dget data "sleep_start") "—"
  let sleep_end := strOr (dget data "sleep_end") "—"
  ["😴 SLEEP LOG (Preview)"] ++
  (match dget data "sleep_score" with
   | some v => ["• Quality: " ++ pyStr v ++ "/100"] | none => []) ++
  (match dget data "duration_hr" with
   | some v => ["• Duration: " ++ pyStr v ++ " h"] | none => []) ++
  (match dget data "energy_score" with
   | some v => ["• Morning energy: " ++ pyStr v ++ "/100"] | none => []) ++
  (if sleep_start ≠ "—" ∨ sleep_end ≠ "—" then
    ["• Window: " ++ sleep_start ++ " → " ++ sleep_end] else []) ++
  (match dget data "resting_hr" with
   | some v => ["• Resting HR: " ++ pyStr v ++ " bpm"] | none => []) ++
  ["• Notes: " ++ strOr (dget data "notes") "—"] ++
  ["", "Confirm to log this sleep or cancel."]

/-- Confirm, edit and cancel keyboard of the sleep preview. -/
def previewMarkup : Markup :=
  [[("Confirm ✅", "sleep_confirm"), ("Edit ✏️", "sleep_edit")],
   [("Cancel ❌", "sleep_cancel")]]

/-- The sleep `_build_preview`: summary text plus keyboard. -/
def build_preview (data : Data) : String × Markup :=
  (joinLines (build_preview_lines data), previewMarkup)

/-- Button handler `handle_sleep_callback`, flattened from its source
if-chain; fall-through to the final reply is the catch-all. -/
def handle_sleep_callback (callback_data : String) (state : StateDict) : Reply :=
  let step := state.step
  let data := state.data
  if callback_data = "sleep_cancel" then
    ⟨"Okay, cancelled the sleep log.", none, none⟩
  else if step = some "ask_quality" ∧ pyStarts callback_data "sleep_q_" then
    match pyIntOfStr? (dropPre callback_data "sleep_q_") with
    | some score =>
        if score < 0 ∨ score > 100 then
          ⟨"Please choose a valid sleep quality between 0 and 100.", none, some state⟩
        else
          ⟨"How many hours did you sleep? (e.g. 7.5)", none,
           some { state with step := some "ask_duration",
                             data := dset data "sleep_score" (some (.vint score)) }⟩
    | none =>
        ⟨"Please choose a valid sleep quality between 0 and 100.", none, some state⟩
  else if step = some "ask_energy" ∧ pyStarts callback_data "sleep_e_" then
    match pyIntOfStr? (dropPre callback_data "sleep_e_") with
    | some energy =>
        if energy < 0 ∨ energy > 100 then
          ⟨"Please choose a valid energy score between 0 and 100.", none, some state⟩
        else
          ⟨"When did you fall asleep? (HH:MM, 24h)\nExample: 23:30",
           some (skipMarkup "sleep_skip_start"),
           some { state with step := some "ask_sleep_start",
                             data := dset data "energy_score" (some (.vint energy)) }⟩
    | none =>
        ⟨"Please choose a valid energy score between 0 and 100.", none, some state⟩
  else if step = some "ask_sleep_start" ∧ callback_data = "sleep_skip_start" then
    ⟨askEndText, some (skipMarkup "sleep_skip_end"),
     some { state with step := some "ask_sleep_end" }⟩
  else if step = some "ask_sleep_end" ∧ callback_data = "sleep_skip_end" then
    ⟨askRhrText, some (skipMarkup "sleep_skip_rhr"),
     some { state with step := some "ask_resting_hr" }⟩
  else if step = some "ask_resting_hr" ∧ callback_data = "sleep_skip_rhr" then
    ⟨askNotesText, some (skipMarkup "sleep_skip_notes"),
     some { state with step := some "ask_notes" }⟩
  else if step = some "ask_notes" ∧ callback_data = "sleep_skip_notes" then
    let pv := build_preview data
    ⟨pv.1, some pv.2, some { state with step := some "preview" }⟩
  else if step = some "preview" ∧ callback_data = "sleep_confirm" then
    ⟨"Logging your sleep now…", none, some state⟩
  else if step = some "preview" ∧ callback_data = "sleep_edit" then
    ⟨"Okay, let’s edit your sleep log.\n\nFirst, how would you rate your sleep quality? (0–100)",
     some qualityMarkup, some base_state⟩
  else
    ⟨"I didn’t understand that option. Please continue or cancel.", none, some state⟩

/-- Text handler `handle_sleep_text`. -/
def handle_sleep_text (text : String) (state : StateDict) : Reply :=
  let step := state.step
  let data := state.data
  let raw := pyStrip text
  if step = some "ask_duration" then
    match parse_number raw with
    | some val =>
        if val.le (.ofNat 0) || (PyFloat.ofNat 24).lt val then
          ⟨"Please enter your sleep duration in hours (e.g. 7.5).", none, some state⟩
        else
          ⟨"How is your morning energy level? (0–100)", some energyMarkup,
           some { state with step := some "ask_energy",
                             data := dset data "duration_hr" (some (.vfloat val)) }⟩
    | none =>
        ⟨"Please enter your sleep duration in hours (e.g. 7.5).", none, some state⟩
  else if step = some "ask_sleep_start" then
    if pyLower raw = "skip" then
      ⟨askEndText, some (skipMarkup "sleep_skip_end"),
       some { state with step := some "ask_sleep_end" }⟩
    else if !valid_time raw then
      ⟨"I couldn’t read that time. Please use HH:MM, e.g. 23:30, or type \x27skip\x27.",
       none, some state⟩
    else
      ⟨askEndText, some (skipMarkup "sleep_skip_end"),
       some { state with step := some "ask_sleep_end",
                         data := dset data "sleep_start" (some (.vstr raw)) }⟩
  else if step = some "ask_sleep_end" then
    if pyLower raw = "skip" then
      ⟨askRhrText, some (skipMarkup "sleep_skip_rhr"),
       some { state with step := some "ask_resting_hr" }⟩
    else if !valid_time raw then
      ⟨"I couldn’t read that time. Please use HH:MM, e.g. 07:30, or type \x27skip\x27.",
       none, some state⟩
    else
      ⟨askRhrText, some (skipMarkup "sleep_skip_rhr"),
       some { state with step := some "ask_resting_hr",
                         data := dset data "sleep_end" (some (.vstr raw)) }⟩
  else if step = some "ask_resting_hr" then
    if pyLower raw = "skip" then
      ⟨askNotesText, some (skipMarkup "sleep_skip_notes"),
       some { state with step := some "ask_notes" }⟩
    else
      match parse_number raw with
      | some val =>
          if val.le (.ofNat 0) then
            ⟨"Please enter resting heart rate as a number in bpm, or type \x27skip\x27.",
             none, some state⟩
          else
            ⟨askNotesText, some (skipMarkup "sleep_skip_notes"),
             some { state with step := some "ask_notes",
                               data := dset data "resting_hr" (some (.vint (pyTrunc val))) }⟩
      | none =>
          ⟨"Please enter resting heart rate as a number in bpm, or type \x27skip\x27.",
           none, some state⟩
  else if step = some "ask_notes" then
    let data2 := if pyLower raw ≠ "skip" then dset data "notes" (some (.vstr raw)) else data
    let pv := build_preview data2
    ⟨pv.1, some pv.2, some { state with step := some "preview", data := data2 }⟩
  else
    ⟨"I’m not sure where we are in the sleep flow. Let’s cancel and start again.",
     none, none⟩

end SleepFlow

namespace ExerciseFlow

/-- Initial state of the exercise flow (`_base_state`). -/
def base_state : StateDict :=
  { flow := some "exercise"
    step := some "ask_type"
    data := [("workout_name", none), ("training_type", none), ("duration_min", none),
             ("distance_km", none), ("calories_burned", none), ("avg_hr", none),
             ("max_hr", none), ("training_intensity", none),
             ("perceived_intensity", none), ("effort_description", none),
             ("tags", none), ("notes", none)] }

/-- Workout-type keyboard shown at entry and on edit. -/
def typeMarkup : Markup :=
  [[("Run 🏃‍♂️", "ex_type_Run"), ("Gym 🏋️‍♂️", "ex_type_Gym")],
   [("Walk 🚶", "ex_type_Walk"), ("Cycle 🚴", "ex_type_Cycle")],
   [("Other", "ex_type_Other"), ("Cancel ❌", "ex_cancel")]]

/-- Entry point `start_exercise_flow`. -/
def start_exercise_flow : Reply :=
  ⟨"🏃‍♂️ Let’s log a workout.\n\nWhat kind of exercise was it?",
   some typeMarkup, some base_state⟩

/-- Single-button skip keyboard used by the optional exercise steps. -/
def skipMarkup (tok : String) : Markup := [[("Skip ⏩", tok)]]

/-- Training-intensity bucket keyboard. -/
def intensityMarkup : Markup :=
  [[("Low (1-3)", "ex_int_3"), ("Medium (4-6)", "ex_int_5")],
   [("High (7-8)", "ex_int_8"), ("Extreme (9-10)", "ex_int_10")]]

/-- Perceived-intensity keyboard. -/
def perceivedMarkup : Markup :=
  [[("Easy (1-3)", "ex_perc_2"), ("Moderate (4-6)", "ex_perc_5"),
    ("Hard (7-9)", "ex_perc_8")],
   [("Skip ⏩", "ex_skip_perc")]]

/-- Lines of the exercise preview (`_build_preview`), before joining. -/
def build_preview_lines (data : Data) : List String :=
  let name := strOr (dget data "workout_name") "Exercise"
  let dist := match dget data "distance_km" with | some v => pyStr v | none => "—"
  let cals := match dget data "calories_burned" with | some v => pyStr v | none => "—"
  let perc := match dget data "perceived_intensity" with | some v => pyStr v | none => "—"
  ["🏃‍♂️ EXERCISE LOG (Preview)",
   "• Type: " ++ name,
   (match dget data "duration_min" with
    | some v => "• Duration: " ++ pyStr v ++ " min" | none => "• Duration: —"),
   "• Dist: " ++ dist ++ " km",
   "• Cals: " ++ cals,
   (match dget data "training_intensity" with
    | some v => "• Intensity: " ++ pyStr v ++ "/10" | none => "• Intensity: —"),
   "• Perceived: " ++ perc ++ "/10",
   "• Effort: " ++ strOr (dget data "effort_description") "—",
   "• Tags: " ++ strOr (dget data "tags") "—",
   "• Notes: " ++ strOr (dget data "notes") "—",
   "", "Confirm to log this workout or cancel."]

/-- Confirm, edit and cancel keyboard of the exercise preview. -/
def previewMarkup : Markup :=
  [[("Confirm ✅", "ex_confirm"), ("Edit ✏️", "ex_edit")],
   [("Cancel ❌", "ex_cancel")]]

/-- The exercise `_build_preview`: summary text plus keyboard. -/
def build_preview (data : Data) : String × Markup :=
  (joinLines (build_preview_lines data), previewMarkup)

/-- Button handler `handle_exercise_callback`, flattened from its source
if-chain.  The four `ex_skip_*` jump branches are not gated on a step, as
in the source; they are tested after the step-gated branches. -/
def handle_exercise_callback (callback_data : String) (state : StateDict) : Reply :=
  let step := state.step
  let data := state.data
  if callback_data = "ex_cancel" then
    ⟨"Okay, cancelled the workout log.", none, none⟩
  else if step = some "ask_type" ∧ pyStarts callback_data "ex_type_" then
    let w_type := dropPre callback_data "ex_type_"
    let data2 := dset (dset data "workout_name" (some (.vstr w_type)))
      "training_type" (some (.vstr (pyLower w_type)))
    ⟨"Got it: *" ++ w_type ++ "*.\n\nHow long did you go for? (in minutes, e.g. `45`)",
     none, some { state with step := some "ask_duration", data := data2 }⟩
  else if step = some "ask_intensity" ∧ pyStarts callback_data "ex_int_" then
    let n : ℤ := (pyIntOfStr? (dropPre callback_data "ex_int_")).getD 5
    ⟨"Perceived intensity? (1–10)\nOr tap Skip.", some perceivedMarkup,
     some { state with step := some "ask_perceived",
                       data := dset data "training_intensity" (some (.vint n)) }⟩
  else if step = some "ask_perceived" then
    let data2 :=
      if pyStarts callback_data "ex_perc_" then
        match pyIntOfStr? (dropPre callback_data "ex_perc_") with
        | some n => dset data "perceived_intensity" (some (.vint n))
        | none => data
      else data
    ⟨"Describe the effort (optional).\nOr tap Skip.", some (skipMarkup "ex_skip_effort"),
     some { state with step := some "ask_effort", data := data2 }⟩
  else if step = some "ask_effort" ∧ callback_data = "ex_skip_effort" then
    ⟨"Any tags? (comma separated)\nOr tap Skip.", some (skipMarkup "ex_skip_tags"),
     some { state with step := some "ask_tags" }⟩
  else if step = some "ask_tags" ∧ callback_data = "ex_skip_tags" then
    ⟨"Any notes?\nOr tap Skip.", some (skipMarkup "ex_skip_notes"),
     some { state with step := some "ask_notes" }⟩
  else if step = some "ask_notes" ∧ callback_data = "ex_skip_notes" then
    let pv := build_preview data
    ⟨pv.1, some pv.2, some { state with step := some "preview" }⟩
  else if callback_data = "ex_skip_dist" then
    ⟨"Calories burned?\nOr tap Skip.", some (skipMarkup "ex_skip_cals"),
     some { state with step := some "ask_calories" }⟩
  else if callback_data = "ex_skip_cals" then
    ⟨"Average Heart Rate?\nOr tap Skip.", some (skipMarkup "ex_skip_avg_hr"),
     some { state with step := some "ask_avg_hr" }⟩
  else if callback_data = "ex_skip_avg_hr" then
    ⟨"Max Heart Rate?\nOr tap Skip.", some (skipMarkup "ex_skip_max_hr"),
     some { state with step := some "ask_max_hr" }⟩
  else if callback_data = "ex_skip_max_hr" then
    ⟨"Training Intensity (1-10)?", some intensityMarkup,
     some { state with step := some "ask_intensity" }⟩
  else if step = some "preview" ∧ callback_data = "ex_confirm" then
    ⟨"Logging your workout now…", none, some state⟩
  else if step = some "preview" ∧ callback_data = "ex_edit" then
    ⟨"Okay, let’s start over.\n\nWhat kind of exercise was it?",
     some typeMarkup, some base_state⟩
  else
    ⟨"I did not understand that option. Please continue or cancel.", none, some state⟩

/-- Text handler `handle_exercise_text`.  At the optional numeric steps any
input that does not parse to a positive number advances with the field left
untouched, mirroring the source. -/
def handle_exercise_text (text : String) (state : StateDict) : Reply :=
  let step := state.step
  let data := state.data
  let raw := pyStrip text
  if step = some "ask_duration" then
    match parse_number raw with
    | some val =>
        if val.le (.ofNat 0) then
          ⟨"Please enter duration as a number of minutes (e.g. `45`).", none, some state⟩
        else
          ⟨"Distance in km? (e.g. 5.2)\nOr tap Skip.", some (skipMarkup "ex_skip_dist"),
           some { state with step := some "ask_distance",
                             data := dset data "duration_min" (some (.vint (pyTrunc val))) }⟩
    | none =>
        ⟨"Please enter duration as a number of minutes (e.g. `45`).", none, some state⟩
  else if step = some "ask_distance" then
    let data2 :=
      match parse_number raw with
      | some val => if (PyFloat.ofNat 0).lt val then dset data "distance_km" (some (.vfloat val)) else data
      | none => data
    ⟨"Calories burned?\nOr tap Skip.", some (skipMarkup "ex_skip_cals"),
     some { state with step := some "ask_calories", data := data2 }⟩
  else if step = some "ask_calories" then
    let data2 :=
      match parse_number raw with
      | some val =>
          if (PyFloat.ofNat 0).lt val then dset data "calories_burned" (some (.vint (pyTrunc val))) else data
      | none => data
    ⟨"Average Heart Rate?\nOr tap Skip.", some (skipMarkup "ex_skip_avg_hr"),
     some { state with step := some "ask_avg_hr", data := data2 }⟩
  else if step = some "ask_avg_hr" then
    let data2 :=
      match parse_number raw with
      | some val => if (PyFloat.ofNat 0).lt val then dset data "avg_hr" (some (.vint (pyTrunc val))) else data
      | none => data
    ⟨"Max Heart Rate?\nOr tap Skip.", some (skipMarkup "ex_skip_max_hr"),
     some { state with step := some "ask_max_hr", data := data2 }⟩
  else if step = some "ask_max_hr" then
    let data2 :=
      match parse_number raw with
      | some val => if (PyFloat.ofNat 0).lt val then dset data "max_hr" (some (.vint (pyTrunc val))) else data
      | none => data
    ⟨"Training Intensity (1-10)?", some intensityMarkup,
     some { state with step := some "ask_intensity", data := data2 }⟩
  else if step = some "ask_effort" then
    let data2 :=
      if pyLower raw ≠ "skip" then dset data "effort_description" (some (.vstr raw)) else data
    ⟨"Any tags? (comma separated)\nOr tap Skip.", some (skipMarkup "ex_skip_tags"),
     some { state with step := some "ask_tags", data := data2 }⟩
  else if step = some "ask_tags" then
    let data2 := if pyLower raw ≠ "skip" then dset data "tags" (some (.vstr raw)) else data
    ⟨"Any notes?\nOr tap Skip.", some (skipMarkup "ex_skip_notes"),
     some { state with step := some "ask_notes", data := data2 }⟩
  else if step = some "ask_notes" then
    let data2 := if pyLower raw ≠ "skip" then dset data "notes" (some (.vstr raw)) else data
    let pv := build_preview data2
    ⟨pv.1, some pv.2, some { state with step := some "preview", data := data2 }⟩
  else
    ⟨"I’m not sure where we are in the exercise flow. Let’s cancel and start again.",
     none, none⟩

end ExerciseFlow

namespace Ux

/-- The static main menu (`build_main_menu`). -/
def build_main_menu : String × Markup :=
  ("Okay, what would you like to log?",
   [[("🥗 Log Food", "log_food"), ("😴 Log Sleep", "log_sleep")],
    [("🏋🏻 Log Exercise", "log_exercise"), ("📋 View Day", "view_day")]])

end Ux

namespace GptFallback

/-- Outcome of the LLM collaborator as observed by `normalize_input`: the
key may be missing (RuntimeError from `_get_client`), the call or the JSON
parse may raise, the returned content may be falsy or a non-dict, or a dict
is produced. -/
inductive LLMOutcome where
  | missingKey
  | callError
  | emptyContent
  | nonDictJson
  | ok : Data → LLMOutcome
deriving DecidableEq, Repr

set_option linter.unusedVariables false in
/-- The normalization adapter `normalize_input`.  Every failure mode of the
collaborator is caught in the source and collapses to `None`; the shallow
embedding is therefore a total function into `Option`. -/
def normalize_input (text : String) (context : String) (llm : LLMOutcome) :
    Option Data :=
  if text = "" ∨ pyStrip text = "" then none
  else if ["skip", "no", "none", "pass"].contains (pyLower (pyStrip text)) then none
  else
    match llm with
    | .ok d => some d
    | .missingKey => none
    | .callError => none
    | .emptyContent => none
    | .nonDictJson => none

end GptFallback

namespace Callbacks

/-- One strptime attempt of `_parse_hhmm` with the given separator: one or
two digits for the hour and the minute, hour below 24, minute below 60. -/
def strptimeHM (s : String) (sep : Char) : Option (ℕ × ℕ) :=
  match splitOnChar sep s.data with
  | [a, b] =>
      if (!a.isEmpty && a.length ≤ 2 && a.all (·.isDigit)) &&
         (!b.isEmpty && b.length ≤ 2 && b.all (·.isDigit)) then
        let h := digitsVal a
        let m := digitsVal b
        if h ≤ 23 ∧ m ≤ 59 then some (h, m) else none
      else none
  | _ => none

/-- The `_parse_hhmm` helper on a raw string: try `"%H:%M"`, then `"%H.%M"`. -/
def parse_hhmm_str (value : String) : Option (ℕ × ℕ) :=
  let v := pyStrip value
  if v = "" then none
  else
    match strptimeHM v ':' with
    | some t => some t
    | none => strptimeHM v '.' 

/-- The `_parse_hhmm` helper: non-strings parse to `None`. -/
def parse_hhmm : Option Val → Option (ℕ × ℕ)
  | some (.vstr s) => parse_hhmm_str s
  | _ => none

/-- Python comparison of `datetime.time` values. -/
def timeGt (a b : ℕ × ℕ) : Bool :=
  a.1 > b.1 || (a.1 == b.1 && a.2 > b.2)

/-- The `_attach_sleep_timestamps` helper: anchor `sleep_end` to today and
date `sleep_start` one day earlier when both times parse and the start is
strictly later than the end. -/
def attach_sleep_timestamps (today : ℤ) (record : Data) : Data :=
  let start_raw := dget record "sleep_start"
  let end_raw := dget record "sleep_end"
  if !optTruthy start_raw && !optTruthy end_raw then record
  else
    let start_time := parse_hhmm start_raw
    let end_time := parse_hhmm end_raw
    if start_time = none ∧ end_time = none then record
    else
      let start_date : ℤ :=
        match start_time, end_time with
        | some st, some et => if timeGt st et then today - 1 else today
        | _, _ => today
      let r1 :=
        match start_time with
        | some t => dset record "sleep_start" (some (.vts start_date t.1 t.2))
        | none => record
      match end_time with
      | some t => dset r1 "sleep_end" (some (.vts today t.1 t.2))
      | none => r1

/-- Observable outcome of one router invocation: the `insert_record` calls
made (table and record), the messages sent, and the state the store holds
for this chat afterwards. -/
structure RouterResult where
  inserts : List (String × Data)
  messages : List (String × Option Markup)
  store : Option StateDict
deriving DecidableEq, Repr

/-- Python `new_state or state`. -/
def orState (ns : Option StateDict) (st : StateDict) : StateDict :=
  match ns with
  | some n => if n.truthy then n else st
  | none => st

/-- The record handed to `insert_record`: the data dict copied and stamped
with the chat id and the current date. -/
def confirmRecord (chatId todayIso : String) (d : Data) : Data :=
  dset (dset d "chat_id" (some (.vstr chatId))) "date" (some (.vstr todayIso))

/-- The sleep branch of `handle_callback`. -/
def routeSleep (chatId todayIso : String) (today : ℤ) (data : String)
    (state : StateDict) (ok : Bool) (err : String) : RouterResult :=
  let r := SleepFlow.handle_sleep_callback data state
  if state.truthy ∧ state.step = some "preview" ∧ data = "sleep_confirm" then
    let final := orState r.next state
    let record := attach_sleep_timestamps today
      (confirmRecord chatId todayIso final.data)
    if ok then
      ⟨[("sleep", record)], [("✅ Sleep logged successfully.", none)], none⟩
    else
      ⟨[("sleep", record)], [("❌ Could not log sleep.\n" ++ err, none)], none⟩
  else
    ⟨[], [(r.text, r.markup)], r.next⟩

/-- The exercise branch of `handle_callback`.  Its confirm guard tests
`data == "exercise_confirm"`, although the exercise preview keyboard emits
`"ex_confirm"`. -/
def routeExercise (chatId todayIso : String) (data : String)
    (state : StateDict) (ok : Bool) (err : String) : RouterResult :=
  let r := ExerciseFlow.handle_exercise_callback data state
  if state.truthy ∧ state.step = some "preview" ∧ data = "exercise_confirm" then
    let final := orState r.next state
    let record := confirmRecord chatId todayIso final.data
    if ok then
      ⟨[("exercise", record)], [("✅ Exercise logged successfully.", none)], none⟩
    else
      ⟨[("exercise", record)], [("❌ Could not log exercise.\n" ++ err, none)], none⟩
  else
    ⟨[], [(r.text, r.markup)], r.next⟩

/-- The food branch of `handle_callback`. -/
def routeFood (chatId todayIso : String) (data : String)
    (state : StateDict) (ok : Bool) (err : String) : RouterResult :=
  let r := FoodFlow.handle_food_callback data state
  if state.truthy ∧ state.step = some "preview" ∧ data = "food_confirm" then
    let final := orState r.next state
    let record := confirmRecord chatId todayIso final.data
    if ok then
      ⟨[("food", record)], [("✅ Food logged successfully.", none)], none⟩
    else
      ⟨[("food", record)], [("❌ Could not log food.\n" ++ err, none)], none⟩
  else
    ⟨[], [(r.text, r.markup)], r.next⟩

/-- The router `handle_callback` over one inbound callback update, with the
`insert_record` outcome passed in as `(ok, err)`.  The store argument is the
state held for the chat; `none` models an absent entry. -/
def handle_callback (chatId todayIso : String) (today : ℤ) (data : String)
    (store : Option StateDict) (ok : Bool) (err : String) : RouterResult :=
  if data = "main_menu" then
    ⟨[], [(Ux.build_main_menu.1, some Ux.build_main_menu.2)], store⟩
  else
    let state := store.getD emptyDict
    if (state.truthy ∧ state.flow = some "sleep") ∨ pyStarts data "sleep_" then
      routeSleep chatId todayIso today data state ok err
    else if (state.truthy ∧ state.flow = some "exercise") ∨ pyStarts data "exercise_" then
      routeExercise chatId todayIso data state ok err
    else if (state.truthy ∧ state.flow = some "food") ∨ pyStarts data "food_" then
      routeFood chatId todayIso data state ok err
    else if data = "log_sleep" then
      ⟨[], [(SleepFlow.start_sleep_flow.text, SleepFlow.start_sleep_flow.markup)],
       SleepFlow.start_sleep_flow.next⟩
    else if data = "log_exercise" then
      ⟨[], [(ExerciseFlow.start_exercise_flow.text, ExerciseFlow.start_exercise_flow.markup)],
       ExerciseFlow.start_exercise_flow.next⟩
    else if data = "log_food" then
      ⟨[], [(FoodFlow.start_food_flow.text, FoodFlow.start_food_flow.markup)],
       FoodFlow.start_food_flow.next⟩
    else
      ⟨[], [], store⟩

end Callbacks

/-- One inbound update for a flow handler pair: a button press or a text. -/
inductive Inp where
  | cb : String → Inp
  | txt : String → Inp
deriving DecidableEq, Repr

/-- Apply one input to an optional state through a callback and a text
handler. -/
def stepFlow (hcb htxt : String → StateDict → Reply)
    (st : Option StateDict) (i : Inp) : Option StateDict :=
  match st with
  | none => none
  | some s =>
      match i with
      | .cb d => (hcb d s).next
      | .txt x => (htxt x s).next

/-- Run a list of inputs from a state. -/
def runFlow (hcb htxt : String → StateDict → Reply)
    (st : Option StateDict) (is : List Inp) : Option StateDict :=
  is.foldl (stepFlow hcb htxt) st

/-- Food runs. -/
def runFood : Option StateDict → List Inp → Option StateDict :=
  runFlow FoodFlow.handle_food_callback FoodFlow.handle_food_text

/-- Sleep runs. -/
def runSleep : Option StateDict → List Inp → Option StateDict :=
  runFlow SleepFlow.handle_sleep_callback SleepFlow.handle_sleep_text

/-- Exercise runs. -/
def runExercise : Option StateDict → List Inp → Option StateDict :=
  runFlow ExerciseFlow.handle_exercise_callback ExerciseFlow.handle_exercise_text

/-- States of the food flow reachable from its entry state by any sequence
of callback and text inputs. -/
inductive FoodReach : StateDict → Prop where
  | entry : FoodReach FoodFlow.base_state
  | cb (s t : StateDict) (d : String) : FoodReach s →
      (FoodFlow.handle_food_callback d s).next = some t → FoodReach t
  | txt (s t : StateDict) (x : String) : FoodReach s →
      (FoodFlow.handle_food_text x s).next = some t → FoodReach t

/-- States of the sleep flow reachable from its entry state. -/
inductive SleepReach : StateDict → Prop where
  | entry : SleepReach SleepFlow.base_state
  | cb (s t : StateDict) (d : String) : SleepReach s →
      (SleepFlow.handle_sleep_callback d s).next = some t → SleepReach t
  | txt (s t : StateDict) (x : String) : SleepReach s →
      (SleepFlow.handle_sleep_text x s).next = some t → SleepReach t

/-- States of the exercise flow reachable from its entry state. -/
inductive ExerciseReach : StateDict → Prop where
  | entry : ExerciseReach ExerciseFlow.base_state
  | cb (s t : StateDict) (d : String) : ExerciseReach s →
      (ExerciseFlow.handle_exercise_callback d s).next = some t → ExerciseReach t
  | txt (s t : StateDict) (x : String) : ExerciseReach s →
      (ExerciseFlow.handle_exercise_text x s).next = some t → ExerciseReach t

/-- Inductive invariant of the food flow: the data dict stays non-empty and
every state at or beyond the macros choice carries a meal name. -/
def foodInv (s : StateDict) : Prop :=
  s.data ≠ [] ∧
  ((s.step = some "ask_macros_choice" ∨ s.step = some "await_calories" ∨
    s.step = some "await_protein" ∨ s.step = some "await_carbs" ∨
    s.step = some "await_fat" ∨ s.step = some "await_fiber" ∨
    s.step = some "ask_notes_choice" ∨ s.step = some "await_notes" ∨
    s.step = some "preview") → dget s.data "meal_name" ≠ none)

/-- Inductive invariant of the sleep flow: past the quality step the score
is present, past the duration step score and duration are present. -/
def sleepInv (s : StateDict) : Prop :=
  (s.step = some "ask_duration" → dget s.data "sleep_score" ≠ none) ∧
  ((s.step = some "ask_energy" ∨ s.step = some "ask_sleep_start" ∨
    s.step = some "ask_sleep_end" ∨ s.step = some "ask_resting_hr" ∨
    s.step = some "ask_notes" ∨ s.step = some "preview") →
      dget s.data "sleep_score" ≠ none ∧ dget s.data "duration_hr" ≠ none)



/-- Tokens the food callback handler acts on at a given step (the guard of
some non-fallback branch). -/
def foodCbRecognized (step : Option String) (d : String) : Prop :=
  d = "food_cancel" ∨
  (step = some "choose_meal_type" ∧ pyStarts d "food_mealtype_" = true) ∨
  (step = some "ask_macros_choice" ∧ (d = "food_macros_yes" ∨ d = "food_macros_no")) ∨
  (step = some "ask_notes_choice" ∧ (d = "food_notes_yes" ∨ d = "food_notes_no")) ∨
  (step = some "preview" ∧ (d = "food_confirm" ∨ d = "food_edit"))

/-- Tokens the sleep callback handler acts on at a given step. -/
def sleepCbRecognized (step : Option String) (d : String) : Prop :=
  d = "sleep_cancel" ∨
  (step = some "ask_quality" ∧ pyStarts d "sleep_q_" = true) ∨
  (step = some "ask_energy" ∧ pyStarts d "sleep_e_" = true) ∨
  (step = some "ask_sleep_start" ∧ d = "sleep_skip_start") ∨
  (step = some "ask_sleep_end" ∧ d = "sleep_skip_end") ∨
  (step = some "ask_resting_hr" ∧ d = "sleep_skip_rhr") ∨
  (step = some "ask_notes" ∧ d = "sleep_skip_notes") ∨
  (step = some "preview" ∧ (d = "sleep_confirm" ∨ d = "sleep_edit"))

/-- Tokens the exercise callback handler acts on at a given step; the four
skip jump tokens are recognized at every step. -/
def exerciseCbRecognized (step : Option String) (d : String) : Prop :=
  d = "ex_cancel" ∨
  (step = some "ask_type" ∧ pyStarts d "ex_type_" = true) ∨
  (step = some "ask_intensity" ∧ pyStarts d "ex_int_" = true) ∨
  step = some "ask_perceived" ∨
  (step = some "ask_effort" ∧ d = "ex_skip_effort") ∨
  (step = some "ask_tags" ∧ d = "ex_skip_tags") ∨
  (step = some "ask_notes" ∧ d = "ex_skip_notes") ∨
  d = "ex_skip_dist" ∨ d = "ex_skip_cals" ∨ d = "ex_skip_avg_hr" ∨
  d = "ex_skip_max_hr" ∨
  (step = some "preview" ∧ (d = "ex_confirm" ∨ d = "ex_edit"))

/-- Steps at which the food text handler has a branch. -/
def foodTextStep (step : Option String) : Prop :=
  step = some "await_description" ∨ step = some "await_calories" ∨
  step = some "await_protein" ∨ step = some "await_carbs" ∨
  step = some "await_fat" ∨ step = some "await_fiber" ∨
  step = some "await_notes"

/-- Steps at which the sleep text handler has a branch. -/
def sleepTextStep (step : Option String) : Prop :=
  step = some "ask_duration" ∨ step = some "ask_sleep_start" ∨
  step = some "ask_sleep_end" ∨ step = some "ask_resting_hr" ∨
  step = some "ask_notes"

/-- Steps at which the exercise text handler has a branch. -/
def exerciseTextStep (step : Option String) : Prop :=
  step = some "ask_duration" ∨ step = some "ask_distance" ∨
  step = some "ask_calories" ∨ step = some "ask_avg_hr" ∨
  step = some "ask_max_hr" ∨ step = some "ask_effort" ∨
  step = some "ask_tags" ∨ step = some "ask_notes"

/-- Input sequence jumping the exercise flow to preview through the
step-ungated skip callbacks, never choosing a workout type. -/
def exerciseSkipJumpInputs : List Inp :=
  [.cb "ex_skip_max_hr", .cb "ex_int_5", .cb "ex_skip_perc",
   .cb "ex_skip_effort", .cb "ex_skip_tags", .cb "ex_skip_notes"]

/-- The state that sequence reaches. -/
def exercisePreviewNoType : StateDict :=
  (runExercise (some ExerciseFlow.base_state) exerciseSkipJumpInputs).getD emptyDict

/-- A happy-path food run reaching preview. -/
def foodHappyInputs : List Inp :=
  [.cb "food_mealtype_snack", .txt "oats", .cb "food_macros_no", .cb "food_notes_no"]

/-- The food state that run reaches. -/
def foodHappyPreview : StateDict :=
  (runFood (some FoodFlow.base_state) foodHappyInputs).getD emptyDict

/-- Sleep inputs providing the required fields and skipping every skippable
field. -/
def sleepSkipInputs : List Inp :=
  [.cb "sleep_q_80", .txt "7.5", .cb "sleep_e_70", .cb "sleep_skip_start",
   .cb "sleep_skip_end", .cb "sleep_skip_rhr", .cb "sleep_skip_notes"]

/-- The sleep state that run reaches. -/
def sleepSkipPreview : StateDict :=
  (runSleep (some SleepFlow.base_state) sleepSkipInputs).getD emptyDict

/-- Exercise inputs providing type and duration and skipping the rest. -/
def exerciseSkipInputs : List Inp :=
  [.cb "ex_type_Run", .txt "30", .cb "ex_skip_dist", .cb "ex_skip_cals",
   .cb "ex_skip_avg_hr", .cb "ex_skip_max_hr", .cb "ex_int_5",
   .cb "ex_skip_perc", .cb "ex_skip_effort", .cb "ex_skip_tags",
   .cb "ex_skip_notes"]

/-- The exercise state that run reaches. -/
def exerciseSkipPreview : StateDict :=
  (runExercise (some ExerciseFlow.base_state) exerciseSkipInputs).getD emptyDict

/-- A record holding the raw times of the cross-midnight scenario. -/
def sleepTsRecord : Data :=
  [("sleep_start", some (.vstr "23:30")), ("sleep_end", some (.vstr "06:45"))]

/-- The exercise state at the distance step after a normal start. -/
def exerciseAskDistance : StateDict :=
  (runExercise (some ExerciseFlow.base_state)
    [.cb "ex_type_Run", .txt "30"]).getD emptyDict

/-! Helper lemmas about the dict model. -/

theorem dget_dset_self (d : Data) (k : String) (v : Option Val) :
    dget (dset d k v) k = v := by
  induction d with
  | nil => simp [dget, dset]
  | cons p rest ih =>
      by_cases h : p.1 = k <;> simp [dget, dset, h, ih]

theorem dget_dset_ne (d : Data) (k k2 : String) (v : Option Val) (h : k ≠ k2) :
    dget (dset d k v) k2 = dget d k2 := by
  induction d with
  | nil => simp [dget, dset, h]
  | cons p rest ih =>
      by_cases h1 : p.1 = k <;> by_cases h2 : p.1 = k2 <;>
        simp_all [dget, dset]

theorem dset_ne_nil (d : Data) (k : String) (v : Option Val) :
    dset d k v ≠ [] := by
  cases d with
  | nil => simp [dset]
  | cons p rest => by_cases h : p.1 = k <;> simp [dset, h]

/-! Value-level facts about the float representation. -/

theorem PyFloat.finite_le_iff (a : ℤ) (ea : ℕ) (b : ℤ) (eb : ℕ) :
    (PyFloat.finite a ea).le (.finite b eb) = true ↔
      (a : ℚ) / 10 ^ ea ≤ (b : ℚ) / 10 ^ eb := by
  simp only [PyFloat.le]
  rw [decide_eq_true_eq, div_le_div_iff₀ (by positivity) (by positivity)]
  constructor <;> intro hh <;> exact_mod_cast hh

theorem PyFloat.finite_lt_iff (a : ℤ) (ea : ℕ) (b : ℤ) (eb : ℕ) :
    (PyFloat.finite a ea).lt (.finite b eb) = true ↔
      (a : ℚ) / 10 ^ ea < (b : ℚ) / 10 ^ eb := by
  simp only [PyFloat.lt]
  rw [decide_eq_true_eq, div_lt_div_iff₀ (by positivity) (by positivity)]
  constructor <;> intro hh <;> exact_mod_cast hh

/-! Preservation of the flow invariants. -/

set_option maxHeartbeats 2000000 in
theorem sleep_cb_preserves (s t : StateDict) (d : String) (hs : sleepInv s)
    (h : (SleepFlow.handle_sleep_callback d s).next = some t) : sleepInv t := by
  unfold SleepFlow.handle_sleep_callback at h
  dsimp only at h
  split_ifs at h
  all_goals repeat' split at h
  all_goals dsimp only at h
  all_goals (injection h with h; subst h)
  all_goals
    simp_all [sleepInv, dget_dset_self, dget_dset_ne, SleepFlow.base_state, dget]

set_option maxHeartbeats 2000000 in
theorem sleep_txt_preserves (s t : StateDict) (x : String) (hs : sleepInv s)
    (h : (SleepFlow.handle_sleep_text x s).next = some t) : sleepInv t := by
  unfold SleepFlow.handle_sleep_text at h
  dsimp only at h
  split_ifs at h
  all_goals repeat' split at h
  all_goals dsimp only at h
  all_goals (injection h with h; subst h)
  all_goals
    simp_all [sleepInv, dget_dset_self, dget_dset_ne, dget]

set_option maxHeartbeats 2000000 in
theorem food_cb_preserves (s t : StateDict) (d : String) (hs : foodInv s)
    (h : (FoodFlow.handle_food_callback d s).next = some t) : foodInv t := by
  unfold FoodFlow.handle_food_callback at h
  dsimp only at h
  split_ifs at h
  all_goals repeat' split at h
  all_goals dsimp only at h
  all_goals (injection h with h; subst h)
  all_goals
    simp_all [foodInv, writeBack, dget_dset_self, dget_dset_ne, dset_ne_nil, dget]

set_option maxHeartbeats 2000000 in
theorem food_txt_preserves (s t : StateDict) (x : String) (hs : foodInv s)
    (h : (FoodFlow.handle_food_text x s).next = some t) : foodInv t := by
  unfold FoodFlow.handle_food_text at h
  dsimp only at h
  split_ifs at h
  all_goals repeat' split at h
  all_goals dsimp only at h
  all_goals (injection h with h; subst h)
  all_goals
    simp_all [foodInv, writeBack, dget_dset_self, dget_dset_ne, dset_ne_nil, dget]

/-! Reachability: runs and the inductive invariants. -/

theorem runFlow_none (hcb htxt : String → StateDict → Reply) (is : List Inp) :
    runFlow hcb htxt none is = none := by
  induction is with
  | nil => rfl
  | cons i rest ih => simpa [runFlow, stepFlow] using ih

theorem food_reach_run (is : List Inp) : ∀ s t : StateDict, FoodReach s →
    runFood (some s) is = some t → FoodReach t := by
  induction is with
  | nil =>
      intro s t hs h
      simp only [runFood, runFlow, List.foldl] at h
      cases h
      exact hs
  | cons i rest ih =>
      intro s t hs h
      rcases hi : stepFlow FoodFlow.handle_food_callback FoodFlow.handle_food_text
        (some s) i with _ | u
      · rw [runFood, runFlow, List.foldl, hi] at h
        rw [show List.foldl (stepFlow FoodFlow.handle_food_callback
          FoodFlow.handle_food_text) none rest =
            runFlow FoodFlow.handle_food_callback FoodFlow.handle_food_text none rest
          from rfl, runFlow_none] at h
        exact Option.noConfusion h
      · have hu : FoodReach u := by
          cases i with
          | cb d => exact FoodReach.cb s u d hs (by simpa [stepFlow] using hi)
          | txt x => exact FoodReach.txt s u x hs (by simpa [stepFlow] using hi)
        refine ih u t hu ?_
        rw [runFood, runFlow, List.foldl, hi] at h
        exact h
  
theorem sleep_reach_run (is : List Inp) : ∀ s t : StateDict, SleepReach s →
    runSleep (some s) is = some t → SleepReach t := by
  induction is with
  | nil =>
      intro s t hs h
      simp only [runSleep, runFlow, List.foldl] at h
      cases h
      exact hs
  | cons i rest ih =>
      intro s t hs h
      rcases hi : stepFlow SleepFlow.handle_sleep_callback SleepFlow.handle_sleep_text
        (some s) i with _ | u
      · rw [runSleep, runFlow, List.foldl, hi] at h
        rw [show List.foldl (stepFlow SleepFlow.handle_sleep_callback
          SleepFlow.handle_sleep_text) none rest =
            runFlow SleepFlow.handle_sleep_callback SleepFlow.handle_sleep_text none rest
          from rfl, runFlow_none] at h
        exact Option.noConfusion h
      · have hu : SleepReach u := by
          cases i with
          | cb d => exact SleepReach.cb s u d hs (by simpa [stepFlow] using hi)
          | txt x => exact SleepReach.txt s u x hs (by simpa [stepFlow] using hi)
        refine ih u t hu ?_
        rw [runSleep, runFlow, List.foldl, hi] at h
        exact h

theorem exercise_reach_run (is : List Inp) : ∀ s t : StateDict, ExerciseReach s →
    runExercise (some s) is = some t → ExerciseReach t := by
  induction is with
  | nil =>
      intro s t hs h
      simp only [runExercise, runFlow, List.foldl] at h
      cases h
      exact hs
  | cons i rest ih =>
      intro s t hs h
      rcases hi : stepFlow ExerciseFlow.handle_exercise_callback
        ExerciseFlow.handle_exercise_text (some s) i with _ | u
      · rw [runExercise, runFlow, List.foldl, hi] at h
        rw [show List.foldl (stepFlow ExerciseFlow.handle_exercise_callback
          ExerciseFlow.handle_exercise_text) none rest =
            runFlow ExerciseFlow.handle_exercise_callback
              ExerciseFlow.handle_exercise_text none rest
          from rfl, runFlow_none] at h
        exact Option.noConfusion h
      · have hu : ExerciseReach u := by
          cases i with
          | cb d => exact ExerciseReach.cb s u d hs (by simpa [stepFlow] using hi)
          | txt x => exact ExerciseReach.txt s u x hs (by simpa [stepFlow] using hi)
        refine ih u t hu ?_
        rw [runExercise, runFlow, List.foldl, hi] at h
        exact h

theorem food_reach_inv (s : StateDict) (h : FoodReach s) : foodInv s := by
  induction h with
  | entry => unfold foodInv; decide
  | cb s t d hr he ih => exact food_cb_preserves s t d ih he
  | txt s t x hr he ih => exact food_txt_preserves s t x ih he

theorem sleep_reach_inv (s : StateDict) (h : SleepReach s) : sleepInv s := by
  induction h with
  | entry => unfold sleepInv; decide
  | cb s t d hr he ih => exact sleep_cb_preserves s t d ih he
  | txt s t x hr he ih => exact sleep_txt_preserves s t x ih he

/-! Claim theorems. -/

/-- C3: for every flow and every state (in particular every step reachable
from the entry), invoking the flow callback handler with that flow cancel
token returns a reply whose nextState is null, terminal regardless of the
step. -/
theorem cancel_token_terminal (s : StateDict) :
    (FoodFlow.handle_food_callback "food_cancel" s).next = none ∧
    (SleepFlow.handle_sleep_callback "sleep_cancel" s).next = none ∧
    (ExerciseFlow.handle_exercise_callback "ex_cancel" s).next = none := by
  refine ⟨?_, ?_, ?_⟩ <;>
    simp [FoodFlow.handle_food_callback, SleepFlow.handle_sleep_callback,
      ExerciseFlow.handle_exercise_callback]

/-- C3 witness: the cancel tokens are terminal at the three entry states. -/
theorem cancel_token_terminal_witness :
    (FoodFlow.handle_food_callback "food_cancel" FoodFlow.base_state).next = none ∧
    (SleepFlow.handle_sleep_callback "sleep_cancel" SleepFlow.base_state).next = none ∧
    (ExerciseFlow.handle_exercise_callback "ex_cancel" ExerciseFlow.base_state).next = none := by
  refine ⟨(cancel_token_terminal FoodFlow.base_state).1, ?_, ?_⟩
  · exact (cancel_token_terminal SleepFlow.base_state).2.1
  · exact (cancel_token_terminal ExerciseFlow.base_state).2.2

/-- C2 (amended): in the food and sleep flows every state reachable from
the entry with step preview carries the required fields (meal name for
food, sleep score and duration for sleep); the exercise flow does not enjoy
the property because its skip jump callbacks are not gated on a step. -/
theorem preview_has_required_fields :
    (∀ s : StateDict, FoodReach s → s.step = some "preview" →
      dget s.data "meal_name" ≠ none) ∧
    (∀ s : StateDict, SleepReach s → s.step = some "preview" →
      dget s.data "sleep_score" ≠ none ∧ dget s.data "duration_hr" ≠ none) := by
  constructor
  · intro s hr hp
    exact (food_reach_inv s hr).2 (by simp [hp])
  · intro s hr hp
    exact (sleep_reach_inv s hr).2 (by simp [hp])



/-- C2 counterexample: the exercise flow reaches step preview with the
required workout type still null, via the step-ungated skip callbacks. -/
theorem exercise_preview_without_type :
    ExerciseReach exercisePreviewNoType ∧
    exercisePreviewNoType.step = some "preview" ∧
    dget exercisePreviewNoType.data "workout_name" = none :=
  ⟨exercise_reach_run exerciseSkipJumpInputs ExerciseFlow.base_state
      exercisePreviewNoType ExerciseReach.entry (by decide),
   by decide, by decide⟩



/-- C2 witness: at the concrete food preview state reached by a happy-path
run the meal name is present. -/
theorem preview_has_required_fields_witness :
    foodHappyPreview.step = some "preview" ∧
    dget foodHappyPreview.data "meal_name" ≠ none :=
  ⟨by decide,
   preview_has_required_fields.1 foodHappyPreview
     (food_reach_run foodHappyInputs FoodFlow.base_state foodHappyPreview
       FoodReach.entry (by decide))
     (by decide)⟩







set_option maxHeartbeats 2000000 in
theorem food_cb_fallback (s : StateDict) (d : String)
    (h : ¬ foodCbRecognized s.step d) :
    FoodFlow.handle_food_callback d s =
      ⟨"I did not understand that option. Please continue or cancel.", none, some s⟩ := by
  unfold foodCbRecognized at h
  have n1 : ¬ d = "food_cancel" := fun hh => h (Or.inl hh)
  have n2 : ¬ (s.step = some "choose_meal_type" ∧ pyStarts d "food_mealtype_" = true) :=
    fun hh => h (Or.inr (Or.inl hh))
  have n3 : ¬ (s.step = some "ask_macros_choice" ∧ d = "food_macros_yes") :=
    fun hh => h (Or.inr (Or.inr (Or.inl ⟨hh.1, Or.inl hh.2⟩)))
  have n4 : ¬ (s.step = some "ask_macros_choice" ∧ d = "food_macros_no") :=
    fun hh => h (Or.inr (Or.inr (Or.inl ⟨hh.1, Or.inr hh.2⟩)))
  have n5 : ¬ (s.step = some "ask_notes_choice" ∧ d = "food_notes_yes") :=
    fun hh => h (Or.inr (Or.inr (Or.inr (Or.inl ⟨hh.1, Or.inl hh.2⟩))))
  have n6 : ¬ (s.step = some "ask_notes_choice" ∧ d = "food_notes_no") :=
    fun hh => h (Or.inr (Or.inr (Or.inr (Or.inl ⟨hh.1, Or.inr hh.2⟩))))
  have n7 : ¬ (s.step = some "preview" ∧ d = "food_confirm") :=
    fun hh => h (Or.inr (Or.inr (Or.inr (Or.inr ⟨hh.1, Or.inl hh.2⟩))))
  have n8 : ¬ (s.step = some "preview" ∧ d = "food_edit") :=
    fun hh => h (Or.inr (Or.inr (Or.inr (Or.inr ⟨hh.1, Or.inr hh.2⟩))))
  unfold FoodFlow.handle_food_callback
  dsimp only
  rw [if_neg n1, if_neg n2, if_neg n3, if_neg n4, if_neg n5, if_neg n6,
    if_neg n7, if_neg n8]

set_option maxHeartbeats 2000000 in
theorem sleep_cb_fallback (s : StateDict) (d : String)
    (h : ¬ sleepCbRecognized s.step d) :
    SleepFlow.handle_sleep_callback d s =
      ⟨"I didn’t understand that option. Please continue or cancel.", none, some s⟩ := by
  unfold sleepCbRecognized at h
  have n1 : ¬ d = "sleep_cancel" := fun hh => h (Or.inl hh)
  have n2 : ¬ (s.step = some "ask_quality" ∧ pyStarts d "sleep_q_" = true) :=
    fun hh => h (Or.inr (Or.inl hh))
  have n3 : ¬ (s.step = some "ask_energy" ∧ pyStarts d "sleep_e_" = true) :=
    fun hh => h (Or.inr (Or.inr (Or.inl hh)))
  have n4 : ¬ (s.step = some "ask_sleep_start" ∧ d = "sleep_skip_start") :=
    fun hh => h (Or.inr (Or.inr (Or.inr (Or.inl hh))))
  have n5 : ¬ (s.step = some "ask_sleep_end" ∧ d = "sleep_skip_end") :=
    fun hh => h (Or.inr (Or.inr (Or.inr (Or.inr (Or.inl hh)))))
  have n6 : ¬ (s.step = some "ask_resting_hr" ∧ d = "sleep_skip_rhr") :=
    fun hh => h (Or.inr (Or.inr (Or.inr (Or.inr (Or.inr (Or.inl hh))))))
  have n7 : ¬ (s.step = some "ask_notes" ∧ d = "sleep_skip_notes") :=
    fun hh => h (Or.inr (Or.inr (Or.inr (Or.inr (Or.inr (Or.inr (Or.inl hh)))))))
  have n8 : ¬ (s.step = some "preview" ∧ d = "sleep_confirm") :=
    fun hh => h (Or.inr (Or.inr (Or.inr (Or.inr (Or.inr (Or.inr
      (Or.inr ⟨hh.1, Or.inl hh.2⟩)))))))
  have n9 : ¬ (s.step = some "preview" ∧ d = "sleep_edit") :=
    fun hh => h (Or.inr (Or.inr (Or.inr (Or.inr (Or.inr (Or.inr
      (Or.inr ⟨hh.1, Or.inr hh.2⟩)))))))
  unfold SleepFlow.handle_sleep_callback
  dsimp only
  rw [if_neg n1, if_neg n2, if_neg n3, if_neg n4, if_neg n5, if_neg n6,
    if_neg n7, if_neg n8, if_neg n9]

set_option maxHeartbeats 2000000 in
theorem exercise_cb_fallback (s : StateDict) (d : String)
    (h : ¬ exerciseCbRecognized s.step d) :
    ExerciseFlow.handle_exercise_callback d s =
      ⟨"I did not understand that option. Please continue or cancel.", none, some s⟩ := by
  unfold exerciseCbRecognized at h
  have n1 : ¬ d = "ex_cancel" := fun hh => h (Or.inl hh)
  have n2 : ¬ (s.step = some "ask_type" ∧ pyStarts d "ex_type_" = true) :=
    fun hh => h (Or.inr (Or.inl hh))
  have n3 : ¬ (s.step = some "ask_intensity" ∧ pyStarts d "ex_int_" = true) :=
    fun hh => h (Or.inr (Or.inr (Or.inl hh)))
  have n4 : ¬ s.step = some "ask_perceived" :=
    fun hh => h (Or.inr (Or.inr (Or.inr (Or.inl hh))))
  have n5 : ¬ (s.step = some "ask_effort" ∧ d = "ex_skip_effort") :=
    fun hh => h (Or.inr (Or.inr (Or.inr (Or.inr (Or.inl hh)))))
  have n6 : ¬ (s.step = some "ask_tags" ∧ d = "ex_skip_tags") :=
    fun hh => h (Or.inr (Or.inr (Or.inr (Or.inr (Or.inr (Or.inl hh))))))
  have n7 : ¬ (s.step = some "ask_notes" ∧ d = "ex_skip_notes") :=
    fun hh => h (Or.inr (Or.inr (Or.inr (Or.inr (Or.inr (Or.inr (Or.inl hh)))))))
  have n8 : ¬ d = "ex_skip_dist" :=
    fun hh => h (Or.inr (Or.inr (Or.inr (Or.inr (Or.inr (Or.inr (Or.inr
      (Or.inl hh))))))))
  have n9 : ¬ d = "ex_skip_cals" :=
    fun hh => h (Or.inr (Or.inr (Or.inr (Or.inr (Or.inr (Or.inr (Or.inr
      (Or.inr (Or.inl hh)))))))))
  have n10 : ¬ d = "ex_skip_avg_hr" :=
    fun hh => h (Or.inr (Or.inr (Or.inr (Or.inr (Or.inr (Or.inr (Or.inr
      (Or.inr (Or.inr (Or.inl hh))))))))))
  have n11 : ¬ d = "ex_skip_max_hr" :=
    fun hh => h (Or.inr (Or.inr (Or.inr (Or.inr (Or.inr (Or.inr (Or.inr
      (Or.inr (Or.inr (Or.inr (Or.inl hh)))))))))))
  have n12 : ¬ (s.step = some "preview" ∧ d = "ex_confirm") :=
    fun hh => h (Or.inr (Or.inr (Or.inr (Or.inr (Or.inr (Or.inr (Or.inr
      (Or.inr (Or.inr (Or.inr (Or.inr ⟨hh.1, Or.inl hh.2⟩)))))))))))
  have n13 : ¬ (s.step = some "preview" ∧ d = "ex_edit") :=
    fun hh => h (Or.inr (Or.inr (Or.inr (Or.inr (Or.inr (Or.inr (Or.inr
      (Or.inr (Or.inr (Or.inr (Or.inr ⟨hh.1, Or.inr hh.2⟩)))))))))))
  unfold ExerciseFlow.handle_exercise_callback
  dsimp only
  rw [if_neg n1, if_neg n2, if_neg n3, if_neg n4, if_neg n5, if_neg n6,
    if_neg n7, if_neg n8, if_neg n9, if_neg n10, if_neg n11, if_neg n12,
    if_neg n13]

set_option maxHeartbeats 2000000 in
theorem food_txt_fallback (s : StateDict) (x : String)
    (h : ¬ foodTextStep s.step) :
    FoodFlow.handle_food_text x s =
      ⟨"I’m not sure where we are in the food flow. Let’s cancel and start again.",
       none, none⟩ := by
  unfold foodTextStep at h
  have n1 : ¬ s.step = some "await_description" := fun hh => h (Or.inl hh)
  have n2 : ¬ s.step = some "await_calories" := fun hh => h (Or.inr (Or.inl hh))
  have n3 : ¬ s.step = some "await_protein" :=
    fun hh => h (Or.inr (Or.inr (Or.inl hh)))
  have n4 : ¬ s.step = some "await_carbs" :=
    fun hh => h (Or.inr (Or.inr (Or.inr (Or.inl hh))))
  have n5 : ¬ s.step = some "await_fat" :=
    fun hh => h (Or.inr (Or.inr (Or.inr (Or.inr (Or.inl hh)))))
  have n6 : ¬ s.step = some "await_fiber" :=
    fun hh => h (Or.inr (Or.inr (Or.inr (Or.inr (Or.inr (Or.inl hh))))))
  have n7 : ¬ s.step = some "await_notes" :=
    fun hh => h (Or.inr (Or.inr (Or.inr (Or.inr (Or.inr (Or.inr hh))))))
  unfold FoodFlow.handle_food_text
  dsimp only
  rw [if_neg n1, if_neg n2, if_neg n3, if_neg n4, if_neg n5, if_neg n6,
    if_neg n7]

set_option maxHeartbeats 2000000 in
theorem sleep_txt_fallback (s : StateDict) (x : String)
    (h : ¬ sleepTextStep s.step) :
    SleepFlow.handle_sleep_text x s =
      ⟨"I’m not sure where we are in the sleep flow. Let’s cancel and start again.",
       none, none⟩ := by
  unfold sleepTextStep at h
  have n1 : ¬ s.step = some "ask_duration" := fun hh => h (Or.inl hh)
  have n2 : ¬ s.step = some "ask_sleep_start" := fun hh => h (Or.inr (Or.inl hh))
  have n3 : ¬ s.step = some "ask_sleep_end" :=
    fun hh => h (Or.inr (Or.inr (Or.inl hh)))
  have n4 : ¬ s.step = some "ask_resting_hr" :=
    fun hh => h (Or.inr (Or.inr (Or.inr (Or.inl hh))))
  have n5 : ¬ s.step = some "ask_notes" :=
    fun hh => h (Or.inr (Or.inr (Or.inr (Or.inr hh))))
  unfold SleepFlow.handle_sleep_text
  dsimp only
  rw [if_neg n1, if_neg n2, if_neg n3, if_neg n4, if_neg n5]

set_option maxHeartbeats 2000000 in
theorem exercise_txt_fallback (s : StateDict) (x : String)
    (h : ¬ exerciseTextStep s.step) :
    ExerciseFlow.handle_exercise_text x s =
      ⟨"I’m not sure where we are in the exercise flow. Let’s cancel and start again.",
       none, none⟩ := by
  unfold exerciseTextStep at h
  have n1 : ¬ s.step = some "ask_duration" := fun hh => h (Or.inl hh)
  have n2 : ¬ s.step = some "ask_distance" := fun hh => h (Or.inr (Or.inl hh))
  have n3 : ¬ s.step = some "ask_calories" :=
    fun hh => h (Or.inr (Or.inr (Or.inl hh)))
  have n4 : ¬ s.step = some "ask_avg_hr" :=
    fun hh => h (Or.inr (Or.inr (Or.inr (Or.inl hh))))
  have n5 : ¬ s.step = some "ask_max_hr" :=
    fun hh => h (Or.inr (Or.inr (Or.inr (Or.inr (Or.inl hh)))))
  have n6 : ¬ s.step = some "ask_effort" :=
    fun hh => h (Or.inr (Or.inr (Or.inr (Or.inr (Or.inr (Or.inl hh))))))
  have n7 : ¬ s.step = some "ask_tags" :=
    fun hh => h (Or.inr (Or.inr (Or.inr (Or.inr (Or.inr (Or.inr (Or.inl hh)))))))
  have n8 : ¬ s.step = some "ask_notes" :=
    fun hh => h (Or.inr (Or.inr (Or.inr (Or.inr (Or.inr (Or.inr (Or.inr hh)))))))
  unfold ExerciseFlow.handle_exercise_text
  dsimp only
  rw [if_neg n1, if_neg n2, if_neg n3, if_neg n4, if_neg n5, if_neg n6,
    if_neg n7, if_neg n8]

/-- C5 counterexample: at the recognized, reachable sleep entry step
ask_quality, an unrecognized text input makes the text handler return a
null nextState, clearing the flow instead of leaving the state unchanged
and resumable. -/
theorem sleep_text_clears_at_quality_step :
    SleepFlow.base_state.step = some "ask_quality" ∧
    (SleepFlow.handle_sleep_text "hello" SleepFlow.base_state).next = none := by
  constructor <;> decide

/-- C5 (amended): an unrecognized callback token at any step yields the
didnt-understand reply with the state unchanged and non-null, for all three
flows; but a text input at a step with no text branch (the button-driven
steps) yields a bail-out reply with a null nextState, dropping the flow. -/
theorem unrecognized_input_behavior :
    (∀ (s : StateDict) (d : String), ¬ foodCbRecognized s.step d →
      (FoodFlow.handle_food_callback d s).next = some s) ∧
    (∀ (s : StateDict) (d : String), ¬ sleepCbRecognized s.step d →
      (SleepFlow.handle_sleep_callback d s).next = some s) ∧
    (∀ (s : StateDict) (d : String), ¬ exerciseCbRecognized s.step d →
      (ExerciseFlow.handle_exercise_callback d s).next = some s) ∧
    (∀ (s : StateDict) (x : String), ¬ foodTextStep s.step →
      (FoodFlow.handle_food_text x s).next = none) ∧
    (∀ (s : StateDict) (x : String), ¬ sleepTextStep s.step →
      (SleepFlow.handle_sleep_text x s).next = none) ∧
    (∀ (s : StateDict) (x : String), ¬ exerciseTextStep s.step →
      (ExerciseFlow.handle_exercise_text x s).next = none) := by
  refine ⟨?_, ?_, ?_, ?_, ?_, ?_⟩ <;> intro s y h
  · rw [food_cb_fallback s y h]
  · rw [sleep_cb_fallback s y h]
  · rw [exercise_cb_fallback s y h]
  · rw [food_txt_fallback s y h]
  · rw [sleep_txt_fallback s y h]
  · rw [exercise_txt_fallback s y h]

/-- C5 witness: an unknown token at the food entry step leaves the state
unchanged, and a text at the sleep entry step clears it. -/
theorem unrecognized_input_behavior_witness :
    (FoodFlow.handle_food_callback "bogus" FoodFlow.base_state).next =
      some FoodFlow.base_state ∧
    (SleepFlow.handle_sleep_text "hi" SleepFlow.base_state).next = none :=
  ⟨unrecognized_input_behavior.1 FoodFlow.base_state "bogus"
     (by unfold foodCbRecognized; decide),
   unrecognized_input_behavior.2.2.2.2.1 SleepFlow.base_state "hi"
     (by unfold sleepTextStep; decide)⟩





/-- C6 counterexample: the food all-skip run reaches preview with null
macros and notes, yet the food preview contains no placeholder at all: the
macros and notes lines are omitted rather than rendered with a dash. -/
theorem food_preview_omits_null_fields :
    foodHappyPreview.step = some "preview" ∧
    dget foodHappyPreview.data "calories" = none ∧
    dget foodHappyPreview.data "notes" = none ∧
    (FoodFlow.build_preview_lines foodHappyPreview.data).all
      (fun l => l.data.all (fun c => c ≠ '—')) = true := by
  refine ⟨by decide, by decide, by decide, by decide⟩

/-- C6 (amended): a complete run skipping every skippable field reaches
step preview in all three flows without failure, but the preview builders
render only a fixed per-flow subset of the fields: sleep substitutes the
placeholder only in the notes line and drops the window, quality, duration,
energy and resting-HR lines when null; exercise renders placeholders for
dist, cals, perceived, effort, tags, notes but never shows avg or max HR;
food omits the macros and notes lines entirely. -/
theorem all_skip_runs_reach_preview :
    runSleep (some SleepFlow.base_state) sleepSkipInputs = some sleepSkipPreview ∧
    sleepSkipPreview.step = some "preview" ∧
    SleepFlow.build_preview_lines sleepSkipPreview.data =
      ["😴 SLEEP LOG (Preview)", "• Quality: 80/100", "• Duration: 7.5 h",
       "• Morning energy: 70/100", "• Notes: —", "",
       "Confirm to log this sleep or cancel."] ∧
    runExercise (some ExerciseFlow.base_state) exerciseSkipInputs =
      some exerciseSkipPreview ∧
    exerciseSkipPreview.step = some "preview" ∧
    ExerciseFlow.build_preview_lines exerciseSkipPreview.data =
      ["🏃‍♂️ EXERCISE LOG (Preview)", "• Type: Run", "• Duration: 30 min",
       "• Dist: — km", "• Cals: —", "• Intensity: 5/10", "• Perceived: —/10",
       "• Effort: —", "• Tags: —", "• Notes: —", "",
       "Confirm to log this workout or cancel."] ∧
    runFood (some FoodFlow.base_state) foodHappyInputs = some foodHappyPreview ∧
    foodHappyPreview.step = some "preview" ∧
    FoodFlow.build_preview_lines foodHappyPreview.data =
      ["🍽 FOOD LOG (Preview)", "• Type: Snack", "• Name: oats", "",
       "Confirm to log this meal or cancel to discard it."] := by
  refine ⟨by decide, by decide, by decide, by decide, by decide, by decide,
    by decide, by decide, by decide⟩

/-- C7: when both sleep_start and sleep_end are parseable HH:MM strings,
the attached sleep_start timestamp is dated one day earlier than sleep_end
exactly when the start time is strictly later than the end time; otherwise
both carry the current day. -/
theorem sleep_timestamps_cross_midnight (today : ℤ) (rec : Data) (s e : String)
    (ts te : ℕ × ℕ)
    (hs : dget rec "sleep_start" = some (.vstr s))
    (he : dget rec "sleep_end" = some (.vstr e))
    (hps : Callbacks.parse_hhmm_str s = some ts)
    (hpe : Callbacks.parse_hhmm_str e = some te) :
    dget (Callbacks.attach_sleep_timestamps today rec) "sleep_start" =
      some (.vts (if Callbacks.timeGt ts te then today - 1 else today) ts.1 ts.2) ∧
    dget (Callbacks.attach_sleep_timestamps today rec) "sleep_end" =
      some (.vts today te.1 te.2) := by
  have hs0 : s ≠ "" := by
    rintro rfl
    rw [show Callbacks.parse_hhmm_str "" = none from by decide] at hps
    exact Option.noConfusion hps
  unfold Callbacks.attach_sleep_timestamps
  rw [hs, he]
  simp only [Callbacks.parse_hhmm]
  rw [hps, hpe]
  simp only [optTruthy, Val.truthy]
  rw [show (s != "") = true by simpa using hs0]
  simp [dget_dset_self, dget_dset_ne]


/-- C7 witness: on 23:30 to 06:45 the start is dated one day earlier than
the end. -/
theorem sleep_timestamps_cross_midnight_witness :
    dget (Callbacks.attach_sleep_timestamps 20000 sleepTsRecord) "sleep_start" =
      some (.vts 19999 23 30) ∧
    dget (Callbacks.attach_sleep_timestamps 20000 sleepTsRecord) "sleep_end" =
      some (.vts 20000 6 45) := by
  have h := sleep_timestamps_cross_midnight 20000 sleepTsRecord "23:30" "06:45"
    (23, 30) (6, 45) (by decide) (by decide) (by decide) (by decide)
  refine ⟨?_, h.2⟩
  rw [h.1, if_pos (by decide)]
  norm_num

/-- C9: the normalization adapter returns null immediately on empty,
whitespace-only or skip-synonym input (case-insensitive after trimming),
and returns null, rather than raising, under every failure mode of the LLM
collaborator (missing key, raised call or parse error, empty content,
non-dict output). -/
theorem normalize_input_null_paths :
    (∀ (t c : String) (llm : GptFallback.LLMOutcome),
      (t = "" ∨ pyStrip t = "" ∨
        ["skip", "no", "none", "pass"].contains (pyLower (pyStrip t)) = true) →
      GptFallback.normalize_input t c llm = none) ∧
    (∀ (t c : String) (llm : GptFallback.LLMOutcome),
      (llm = .missingKey ∨ llm = .callError ∨ llm = .emptyContent ∨
        llm = .nonDictJson) →
      GptFallback.normalize_input t c llm = none) := by
  constructor
  · intro t c llm h
    unfold GptFallback.normalize_input
    rcases h with h | h | h
    · simp [h]
    · simp [h]
    · split_ifs with h1
      · rfl
      · rfl
  · intro t c llm h
    unfold GptFallback.normalize_input
    split_ifs <;> first | rfl | (rcases h with rfl | rfl | rfl | rfl <;> rfl)

/-- C9 witness: a trimmed, uppercased skip synonym and a collaborator
failure both yield null. -/
theorem normalize_input_null_paths_witness :
    GptFallback.normalize_input " PASS " "number" (.ok []) = none ∧
    GptFallback.normalize_input "6 hours" "duration" .callError = none :=
  ⟨normalize_input_null_paths.1 " PASS " "number" (.ok [])
     (Or.inr (Or.inr (by decide))),
   normalize_input_null_paths.2 "6 hours" "duration" .callError
     (Or.inr (Or.inl rfl))⟩

/-- C10 counterexample: the input nan parses as a Python float, is not a
value in (0, 24], and is nevertheless stored as the sleep duration and the
flow advances: both rejection comparisons are false on nan. -/
theorem sleep_duration_accepts_nan :
    parse_number "nan" = some PyFloat.nan ∧
    (SleepFlow.handle_sleep_text "nan"
        { SleepFlow.base_state with step := some "ask_duration" }).next =
      some { SleepFlow.base_state with
              step := some "ask_energy"
              data := dset SleepFlow.base_state.data "duration_hr"
                (some (.vfloat .nan)) } := by
  refine ⟨by decide, by decide⟩

/-- C10 (amended): at the sleep duration step an input is stored and the
flow advances exactly when it parses as a Python float failing both
rejection comparisons: for finite parsed values this is exactly
0 < v ≤ 24, an upper bound the spec never states, but nan compares false
to both bounds and is therefore also accepted and stored; non-parsing
input, non-positive or above-24 finite values and both infinities
re-prompt with step and data unchanged. -/
theorem sleep_duration_bounds (s : StateDict) (x : String)
    (hstep : s.step = some "ask_duration") :
    (∀ (n : ℤ) (e : ℕ), parse_number (pyStrip x) = some (.finite n e) →
      0 < (n : ℚ) / 10 ^ e → (n : ℚ) / 10 ^ e ≤ 24 →
      SleepFlow.handle_sleep_text x s =
        ⟨"How is your morning energy level? (0–100)", some SleepFlow.energyMarkup,
         some { s with step := some "ask_energy",
                       data := dset s.data "duration_hr"
                         (some (.vfloat (.finite n e))) }⟩) ∧
    (parse_number (pyStrip x) = some .nan →
      SleepFlow.handle_sleep_text x s =
        ⟨"How is your morning energy level? (0–100)", some SleepFlow.energyMarkup,
         some { s with step := some "ask_energy",
                       data := dset s.data "duration_hr"
                         (some (.vfloat .nan)) }⟩) ∧
    (parse_number (pyStrip x) = none →
      SleepFlow.handle_sleep_text x s =
        ⟨"Please enter your sleep duration in hours (e.g. 7.5).", none, some s⟩) ∧
    (∀ (n : ℤ) (e : ℕ), parse_number (pyStrip x) = some (.finite n e) →
      ((n : ℚ) / 10 ^ e ≤ 0 ∨ 24 < (n : ℚ) / 10 ^ e) →
      SleepFlow.handle_sleep_text x s =
        ⟨"Please enter your sleep duration in hours (e.g. 7.5).", none, some s⟩) ∧
    (∀ b : Bool, parse_number (pyStrip x) = some (.inf b) →
      SleepFlow.handle_sleep_text x s =
        ⟨"Please enter your sleep duration in hours (e.g. 7.5).", none, some s⟩) := by
  refine ⟨?_, ?_, ?_, ?_, ?_⟩
  · intro n e hv hpos hle
    have h1 : (PyFloat.finite n e).le (PyFloat.ofNat 0) = false := by
      rw [Bool.eq_false_iff, Ne, PyFloat.ofNat, PyFloat.finite_le_iff]
      push_neg
      simpa using hpos
    have h2 : (PyFloat.ofNat 24).lt (PyFloat.finite n e) = false := by
      rw [Bool.eq_false_iff, Ne, PyFloat.ofNat, PyFloat.finite_lt_iff]
      push_neg
      simpa using hle
    unfold SleepFlow.handle_sleep_text
    dsimp only
    rw [if_pos hstep, hv]
    dsimp only
    rw [h1, h2]
    rfl
  · intro hv
    have hg : (PyFloat.nan.le (PyFloat.ofNat 0) ||
        (PyFloat.ofNat 24).lt PyFloat.nan) = false := by decide
    unfold SleepFlow.handle_sleep_text
    dsimp only
    rw [if_pos hstep, hv]
    dsimp only
    rw [hg]
    rfl
  · intro hv
    unfold SleepFlow.handle_sleep_text
    dsimp only
    rw [if_pos hstep, hv]
  · intro n e hv hbad
    have hg : ((PyFloat.finite n e).le (PyFloat.ofNat 0) ||
        (PyFloat.ofNat 24).lt (PyFloat.finite n e)) = true := by
      rcases hbad with hb | hb
      · have hh : (PyFloat.finite n e).le (PyFloat.ofNat 0) = true := by
          rw [PyFloat.ofNat, PyFloat.finite_le_iff]
          simpa using hb
        simp [hh]
      · have hh : (PyFloat.ofNat 24).lt (PyFloat.finite n e) = true := by
          rw [PyFloat.ofNat, PyFloat.finite_lt_iff]
          simpa using hb
        simp [hh]
    unfold SleepFlow.handle_sleep_text
    dsimp only
    rw [if_pos hstep, hv]
    dsimp only
    rw [hg]
    rfl
  · intro b hv
    have hg : ((PyFloat.inf b).le (PyFloat.ofNat 0) ||
        (PyFloat.ofNat 24).lt (PyFloat.inf b)) = true := by
      cases b <;> rfl
    unfold SleepFlow.handle_sleep_text
    dsimp only
    rw [if_pos hstep, hv]
    dsimp only
    rw [hg]
    rfl

/-- C10 witness: 7,5 is stored and advances, 25 and 1e30 re-prompt by the
upper bound, inf re-prompts, abc re-prompts by parse failure. -/
theorem sleep_duration_bounds_witness :
    SleepFlow.handle_sleep_text "7,5"
        { SleepFlow.base_state with step := some "ask_duration" } =
      ⟨"How is your morning energy level? (0–100)", some SleepFlow.energyMarkup,
       some { SleepFlow.base_state with
                step := some "ask_energy"
                data := dset SleepFlow.base_state.data "duration_hr"
                  (some (.vfloat (.finite 75 1))) }⟩ ∧
    SleepFlow.handle_sleep_text "25"
        { SleepFlow.base_state with step := some "ask_duration" } =
      ⟨"Please enter your sleep duration in hours (e.g. 7.5).", none,
       some { SleepFlow.base_state with step := some "ask_duration" }⟩ ∧
    SleepFlow.handle_sleep_text "1e30"
        { SleepFlow.base_state with step := some "ask_duration" } =
      ⟨"Please enter your sleep duration in hours (e.g. 7.5).", none,
       some { SleepFlow.base_state with step := some "ask_duration" }⟩ ∧
    SleepFlow.handle_sleep_text "inf"
        { SleepFlow.base_state with step := some "ask_duration" } =
      ⟨"Please enter your sleep duration in hours (e.g. 7.5).", none,
       some { SleepFlow.base_state with step := some "ask_duration" }⟩ ∧
    SleepFlow.handle_sleep_text "abc"
        { SleepFlow.base_state with step := some "ask_duration" } =
      ⟨"Please enter your sleep duration in hours (e.g. 7.5).", none,
       some { SleepFlow.base_state with step := some "ask_duration" }⟩ := by
  refine ⟨?_, ?_, ?_, ?_, ?_⟩
  · exact (sleep_duration_bounds _ "7,5" rfl).1 75 1 (by decide)
      (by norm_num) (by norm_num)
  · exact (sleep_duration_bounds _ "25" rfl).2.2.2.1 25 0 (by decide)
      (Or.inr (by norm_num))
  · exact (sleep_duration_bounds _ "1e30" rfl).2.2.2.1 1000000000000000000000000000000 0
      (by decide) (Or.inr (by norm_num))
  · exact (sleep_duration_bounds _ "inf" rfl).2.2.2.2 false (by decide)
  · exact (sleep_duration_bounds _ "abc" rfl).2.2.1 (by decide)


/-- C8 counterexample: at the optional exercise distance step the
non-numeric, non-skip input xyz neither stores a number nor re-prompts: the
step advances to ask_calories with the field left null. -/
theorem exercise_optional_step_swallows_garbage :
    exerciseAskDistance.step = some "ask_distance" ∧
    parse_number "xyz" = none ∧
    (ExerciseFlow.handle_exercise_text "xyz" exerciseAskDistance).next =
      some { exerciseAskDistance with step := some "ask_calories" } := by
  refine ⟨by decide, by decide, by decide⟩

/-- C8 (amended): at required numeric text steps any input that does not
parse as a Python float, including the literal skip, re-prompts with state
unchanged, while parsed values are stored and advance (food applies no
range guard, so even nan is stored); at the food fibre and sleep
resting-HR optional steps the literal skip stores null and advances while
other non-parsing input re-prompts; but at the exercise optional numeric
steps (distance and the following ones) any non-parsing input is treated
as a skip and advances with the field left null, and a positive finite
value is stored. -/
theorem numeric_step_skip_semantics :
    (∀ (s : StateDict) (x : String), s.step = some "await_calories" →
      parse_number x = none →
      FoodFlow.handle_food_text x s =
        ⟨"Please enter calories as a number (e.g. `520`).", none, some s⟩) ∧
    (∀ (s : StateDict) (x : String) (v : PyFloat), s.step = some "await_calories" →
      parse_number x = some v →
      FoodFlow.handle_food_text x s =
        ⟨"Protein in grams? (e.g. `32`)", none,
         some { s with step := some "await_protein",
                       data := writeBack s.data
                         (dset s.data "calories" (some (.vfloat v))) }⟩) ∧
    (∀ (s : StateDict) (x : String), s.step = some "ask_duration" →
      parse_number (pyStrip x) = none →
      ExerciseFlow.handle_exercise_text x s =
        ⟨"Please enter duration as a number of minutes (e.g. `45`).", none, some s⟩) ∧
    parse_number "skip" = none ∧
    (∀ (s : StateDict) (x : String), s.step = some "await_fiber" →
      pyLower (pyStrip x) = "skip" →
      (FoodFlow.handle_food_text x s).next =
        some { s with step := some "ask_notes_choice",
                      data := writeBack s.data (dset s.data "fiber_g" none) }) ∧
    (∀ (s : StateDict) (x : String), s.step = some "await_fiber" →
      pyLower (pyStrip x) ≠ "skip" → parse_number x = none →
      FoodFlow.handle_food_text x s =
        ⟨"Please enter fibre as a number in grams (e.g. `8`) or type `skip`.",
         none, some s⟩) ∧
    (∀ (s : StateDict) (x : String), s.step = some "ask_resting_hr" →
      pyLower (pyStrip x) = "skip" →
      (SleepFlow.handle_sleep_text x s).next =
        some { s with step := some "ask_notes" }) ∧
    (∀ (s : StateDict) (x : String), s.step = some "ask_resting_hr" →
      pyLower (pyStrip x) ≠ "skip" → parse_number (pyStrip x) = none →
      SleepFlow.handle_sleep_text x s =
        ⟨"Please enter resting heart rate as a number in bpm, or type \x27skip\x27.",
         none, some s⟩) ∧
    (∀ (s : StateDict) (x : String), s.step = some "ask_distance" →
      parse_number (pyStrip x) = none →
      (ExerciseFlow.handle_exercise_text x s).next =
        some { s with step := some "ask_calories" }) ∧
    (∀ (s : StateDict) (x : String) (n : ℤ) (e : ℕ),
      s.step = some "ask_distance" →
      parse_number (pyStrip x) = some (.finite n e) → 0 < (n : ℚ) / 10 ^ e →
      (ExerciseFlow.handle_exercise_text x s).next =
        some { s with step := some "ask_calories",
                      data := dset s.data "distance_km"
                        (some (.vfloat (.finite n e))) }) := by
  refine ⟨?_, ?_, ?_, by decide, ?_, ?_, ?_, ?_, ?_, ?_⟩
  · intro s x hstep hp
    unfold FoodFlow.handle_food_text
    dsimp only
    rw [if_neg (by rw [hstep]; decide), if_pos hstep, hp]
  · intro s x v hstep hp
    unfold FoodFlow.handle_food_text
    dsimp only
    rw [if_neg (by rw [hstep]; decide), if_pos hstep, hp]
  · intro s x hstep hp
    unfold ExerciseFlow.handle_exercise_text
    dsimp only
    rw [if_pos hstep, hp]
  · intro s x hstep hskip
    unfold FoodFlow.handle_food_text
    dsimp only
    rw [if_neg (by rw [hstep]; decide), if_neg (by rw [hstep]; decide),
      if_neg (by rw [hstep]; decide), if_neg (by rw [hstep]; decide),
      if_neg (by rw [hstep]; decide), if_pos hstep, if_pos hskip]
  · intro s x hstep hskip hp
    unfold FoodFlow.handle_food_text
    dsimp only
    rw [if_neg (by rw [hstep]; decide), if_neg (by rw [hstep]; decide),
      if_neg (by rw [hstep]; decide), if_neg (by rw [hstep]; decide),
      if_neg (by rw [hstep]; decide), if_pos hstep, if_neg hskip, hp]
  · intro s x hstep hskip
    unfold SleepFlow.handle_sleep_text
    dsimp only
    rw [if_neg (by rw [hstep]; decide), if_neg (by rw [hstep]; decide),
      if_neg (by rw [hstep]; decide), if_pos hstep, if_pos hskip]
  · intro s x hstep hskip hp
    unfold SleepFlow.handle_sleep_text
    dsimp only
    rw [if_neg (by rw [hstep]; decide), if_neg (by rw [hstep]; decide),
      if_neg (by rw [hstep]; decide), if_pos hstep, if_neg hskip, hp]
  · intro s x hstep hp
    unfold ExerciseFlow.handle_exercise_text
    dsimp only
    rw [if_neg (by rw [hstep]; decide), if_pos hstep, hp]
  · intro s x n e hstep hp hpos
    have hg : (PyFloat.ofNat 0).lt (.finite n e) = true := by
      rw [PyFloat.ofNat, PyFloat.finite_lt_iff]
      simpa using hpos
    unfold ExerciseFlow.handle_exercise_text
    dsimp only
    rw [if_neg (by rw [hstep]; decide), if_pos hstep, hp]
    dsimp only
    rw [hg, if_pos rfl]

/-- C8 witness: skip at required food calories re-prompts, 1e1 parses and
is stored there as 10.0, skip at optional food fibre stores null and
advances, skip at sleep resting HR advances. -/
theorem numeric_step_skip_semantics_witness :
    FoodFlow.handle_food_text "skip"
        { FoodFlow.base_state with step := some "await_calories" } =
      ⟨"Please enter calories as a number (e.g. `520`).", none,
       some { FoodFlow.base_state with step := some "await_calories" }⟩ ∧
    FoodFlow.handle_food_text "1e1"
        { FoodFlow.base_state with step := some "await_calories" } =
      ⟨"Protein in grams? (e.g. `32`)", none,
       some { FoodFlow.base_state with
                step := some "await_protein"
                data := writeBack FoodFlow.base_state.data
                  (dset FoodFlow.base_state.data "calories"
                    (some (.vfloat (.finite 10 0)))) }⟩ ∧
    (FoodFlow.handle_food_text "skip"
        { FoodFlow.base_state with step := some "await_fiber" }).next =
      some { FoodFlow.base_state with
              step := some "ask_notes_choice"
              data := writeBack FoodFlow.base_state.data
                (dset FoodFlow.base_state.data "fiber_g" none) } ∧
    (SleepFlow.handle_sleep_text "skip"
        { SleepFlow.base_state with step := some "ask_resting_hr" }).next =
      some { SleepFlow.base_state with step := some "ask_notes" } :=
  ⟨numeric_step_skip_semantics.1 _ "skip" rfl (by decide),
   numeric_step_skip_semantics.2.1 _ "1e1" (.finite 10 0) rfl (by decide),
   numeric_step_skip_semantics.2.2.2.2.1 _ "skip" rfl (by decide),
   numeric_step_skip_semantics.2.2.2.2.2.2.1 _ "skip" rfl (by decide)⟩

/-- C4 counterexample: with a stale sleep state active, the food entry
token log_food is not routed by its data: the sleep branch captures it,
the sleep handler answers with its fallback, and no food flow starts. -/
theorem log_food_swallowed_by_stale_sleep_state :
    (Callbacks.handle_callback "77" "2026-10-12" 20000 "log_food"
        (some SleepFlow.base_state) true "").store = some SleepFlow.base_state ∧
    (Callbacks.handle_callback "77" "2026-10-12" 20000 "log_food"
        (some SleepFlow.base_state) true "").messages =
      [("I didn’t understand that option. Please continue or cancel.", none)] ∧
    (Callbacks.handle_callback "77" "2026-10-12" 20000 "log_food"
        (some SleepFlow.base_state) true "").inserts = [] := by
  refine ⟨by decide, by decide, by decide⟩

/-- C4 (amended): the router tests, in order, the sleep, exercise and food
branches, each matching when the active state belongs to that flow or the
data carries that flow prefix.  Hence an active state captures every
callback except main_menu and the prefixes of earlier branches: data-prefix
matching force-switches flows only against a stale state of a later branch,
and the entry tokens (log_food and friends) never override an active
state. -/
theorem router_precedence :
    (∀ (c i : String) (today : ℤ) (d : String) (st : StateDict) (ok : Bool)
        (e : String), st.truthy = true → st.flow = some "sleep" →
      d ≠ "main_menu" →
      Callbacks.handle_callback c i today d (some st) ok e =
        Callbacks.routeSleep c i today d st ok e) ∧
    (∀ (c i : String) (today : ℤ) (d : String) (store : Option StateDict)
        (ok : Bool) (e : String), d ≠ "main_menu" → pyStarts d "sleep_" = true →
      Callbacks.handle_callback c i today d store ok e =
        Callbacks.routeSleep c i today d (store.getD emptyDict) ok e) ∧
    (∀ (c i : String) (today : ℤ) (d : String) (st : StateDict) (ok : Bool)
        (e : String), st.truthy = true → st.flow = some "exercise" →
      d ≠ "main_menu" → pyStarts d "sleep_" = false →
      Callbacks.handle_callback c i today d (some st) ok e =
        Callbacks.routeExercise c i d st ok e) ∧
    (∀ (c i : String) (today : ℤ) (d : String) (st : StateDict) (ok : Bool)
        (e : String), st.truthy = true → st.flow = some "food" →
      d ≠ "main_menu" → pyStarts d "sleep_" = false →
      pyStarts d "exercise_" = false →
      Callbacks.handle_callback c i today d (some st) ok e =
        Callbacks.routeFood c i d st ok e) := by
  refine ⟨?_, ?_, ?_, ?_⟩
  · intro c i today d st ok e htr hfl hd
    unfold Callbacks.handle_callback
    rw [if_neg hd]
    dsimp only [Option.getD]
    rw [if_pos (Or.inl ⟨htr, hfl⟩)]
  · intro c i today d store ok e hd hpre
    unfold Callbacks.handle_callback
    rw [if_neg hd]
    rw [if_pos (Or.inr hpre)]
  · intro c i today d st ok e htr hfl hd hsp
    unfold Callbacks.handle_callback
    rw [if_neg hd]
    dsimp only [Option.getD]
    rw [if_neg (by simp [hfl, hsp]), if_pos (Or.inl ⟨htr, hfl⟩)]
  · intro c i today d st ok e htr hfl hd hsp hep
    unfold Callbacks.handle_callback
    rw [if_neg hd]
    dsimp only [Option.getD]
    rw [if_neg (by simp [hfl, hsp]), if_neg (by simp [hfl, hep]),
      if_pos (Or.inl ⟨htr, hfl⟩)]

/-- C4 witness: a sleep-prefixed button with a stale food state goes to the
sleep branch, and a food-prefixed button with a stale sleep state goes to
the sleep branch as well. -/
theorem router_precedence_witness :
    Callbacks.handle_callback "77" "2026-10-12" 20000 "sleep_q_80"
        (some FoodFlow.base_state) true "" =
      Callbacks.routeSleep "77" "2026-10-12" 20000 "sleep_q_80"
        FoodFlow.base_state true "" ∧
    Callbacks.handle_callback "77" "2026-10-12" 20000 "food_mealtype_snack"
        (some SleepFlow.base_state) true "" =
      Callbacks.routeSleep "77" "2026-10-12" 20000 "food_mealtype_snack"
        SleepFlow.base_state true "" :=
  ⟨router_precedence.2.1 "77" "2026-10-12" 20000 "sleep_q_80"
     (some FoodFlow.base_state) true "" (by decide) (by decide),
   router_precedence.1 "77" "2026-10-12" 20000 "food_mealtype_snack"
     SleepFlow.base_state true "" (by decide) rfl (by decide)⟩

/-- Value of one router invocation on sleep_confirm at a sleep preview
state: one insert of the stamped, timestamp-normalized record; state
cleared on success and on failure. -/
theorem sleep_confirm_once (c i : String) (today : ℤ) (st : StateDict)
    (ok : Bool) (e : String) (hfl : st.flow = some "sleep")
    (hstep : st.step = some "preview") :
    Callbacks.handle_callback c i today "sleep_confirm" (some st) ok e =
      if ok then
        ⟨[("sleep", Callbacks.attach_sleep_timestamps today
            (Callbacks.confirmRecord c i st.data))],
         [("✅ Sleep logged successfully.", none)], none⟩
      else
        ⟨[("sleep", Callbacks.attach_sleep_timestamps today
            (Callbacks.confirmRecord c i st.data))],
         [("❌ Could not log sleep.\n" ++ e, none)], none⟩ := by
  have hne : st ≠ emptyDict := by
    rintro rfl
    simp [emptyDict] at hfl
  have htr : st.truthy = true := by
    simpa [StateDict.truthy] using hne
  have hr : SleepFlow.handle_sleep_callback "sleep_confirm" st =
      ⟨"Logging your sleep now…", none, some st⟩ := by
    unfold SleepFlow.handle_sleep_callback
    dsimp only
    rw [if_neg (by decide), if_neg (by rintro ⟨-, hp⟩; revert hp; decide),
      if_neg (by rintro ⟨-, hp⟩; revert hp; decide),
      if_neg (by rintro ⟨-, hp⟩; revert hp; decide),
      if_neg (by rintro ⟨-, hp⟩; revert hp; decide),
      if_neg (by rintro ⟨-, hp⟩; revert hp; decide),
      if_neg (by rintro ⟨-, hp⟩; revert hp; decide),
      if_pos ⟨hstep, rfl⟩]
  have ho : Callbacks.orState (some st) st = st := by
    unfold Callbacks.orState
    dsimp only
    split_ifs <;> rfl
  unfold Callbacks.handle_callback
  rw [if_neg (by decide)]
  dsimp only [Option.getD]
  rw [if_pos (Or.inr (by decide))]
  unfold Callbacks.routeSleep
  rw [hr, if_pos ⟨htr, hstep, rfl⟩]
  dsimp only
  rw [ho]

/-- Value of one router invocation on food_confirm at a food preview state:
one insert of the stamped record; state cleared on success and failure. -/
theorem food_confirm_once (c i : String) (today : ℤ) (st : StateDict)
    (ok : Bool) (e : String) (hfl : st.flow = some "food")
    (hstep : st.step = some "preview") :
    Callbacks.handle_callback c i today "food_confirm" (some st) ok e =
      if ok then
        ⟨[("food", Callbacks.confirmRecord c i st.data)],
         [("✅ Food logged successfully.", none)], none⟩
      else
        ⟨[("food", Callbacks.confirmRecord c i st.data)],
         [("❌ Could not log food.\n" ++ e, none)], none⟩ := by
  have hne : st ≠ emptyDict := by
    rintro rfl
    simp [emptyDict] at hfl
  have htr : st.truthy = true := by
    simpa [StateDict.truthy] using hne
  have hr : FoodFlow.handle_food_callback "food_confirm" st =
      ⟨"Logging your meal now…", none, some st⟩ := by
    unfold FoodFlow.handle_food_callback
    dsimp only
    rw [if_neg (by decide), if_neg (by rintro ⟨-, hp⟩; revert hp; decide),
      if_neg (by rintro ⟨-, hp⟩; revert hp; decide),
      if_neg (by rintro ⟨-, hp⟩; revert hp; decide),
      if_neg (by rintro ⟨-, hp⟩; revert hp; decide),
      if_neg (by rintro ⟨-, hp⟩; revert hp; decide),
      if_pos ⟨hstep, rfl⟩]
  have ho : Callbacks.orState (some st) st = st := by
    unfold Callbacks.orState
    dsimp only
    split_ifs <;> rfl
  unfold Callbacks.handle_callback
  rw [if_neg (by decide)]
  dsimp only [Option.getD]
  rw [if_neg (by rintro (⟨-, hp⟩ | hp) <;>
    first | (rw [hfl] at hp; revert hp; decide) | (revert hp; decide))]
  rw [if_neg (by rintro (⟨-, hp⟩ | hp) <;>
    first | (rw [hfl] at hp; revert hp; decide) | (revert hp; decide))]
  rw [if_pos (Or.inl ⟨htr, hfl⟩)]
  unfold Callbacks.routeFood
  rw [hr, if_pos ⟨htr, hstep, rfl⟩]
  dsimp only
  rw [ho]

/-- A sleep_confirm arriving with no stored state inserts nothing: the
empty state fails the confirm guard and the handler answers its fallback. -/
theorem sleep_confirm_no_state (c i : String) (today : ℤ) (ok : Bool)
    (e : String) :
    Callbacks.handle_callback c i today "sleep_confirm" none ok e =
      ⟨[], [("I didn’t understand that option. Please continue or cancel.",
        none)], some emptyDict⟩ := by
  unfold Callbacks.handle_callback
  rw [if_neg (by decide)]
  dsimp only [Option.getD]
  rw [if_pos (Or.inr (by decide))]
  unfold Callbacks.routeSleep
  rw [if_neg (by rintro ⟨ht, -⟩; revert ht; decide)]
  rfl

/-- A food_confirm arriving with no stored state inserts nothing. -/
theorem food_confirm_no_state (c i : String) (today : ℤ) (ok : Bool)
    (e : String) :
    Callbacks.handle_callback c i today "food_confirm" none ok e =
      ⟨[], [("I did not understand that option. Please continue or cancel.",
        none)], some emptyDict⟩ := by
  unfold Callbacks.handle_callback
  rw [if_neg (by decide)]
  dsimp only [Option.getD]
  rw [if_neg (by rintro (⟨ht, -⟩ | hp) <;>
    first | (revert ht; decide) | (revert hp; decide))]
  rw [if_neg (by rintro (⟨ht, -⟩ | hp) <;>
    first | (revert ht; decide) | (revert hp; decide))]
  rw [if_pos (Or.inr (by decide))]
  unfold Callbacks.routeFood
  rw [if_neg (by rintro ⟨ht, -⟩; revert ht; decide)]
  rfl

/-- C1: for the sleep and food flows, a confirm tap at a preview state
triggers exactly one insert, of the record built from the state data plus
chat id and current date, and the state is cleared in the success and the
failure path; a second confirm afterwards finds no active flow and inserts
nothing.  For the exercise flow the claim fails in the code: the router
guard tests for the token exercise_confirm while the preview keyboard
emits ex_confirm, so tapping the exercise confirm button inserts nothing
and leaves the state at preview while replying that the workout is being
logged. -/
theorem confirm_insert_behavior :
    (∀ (c i : String) (today : ℤ) (st : StateDict) (ok : Bool) (e : String),
      st.flow = some "sleep" → st.step = some "preview" →
      (Callbacks.handle_callback c i today "sleep_confirm" (some st) ok e).inserts =
        [("sleep", Callbacks.attach_sleep_timestamps today
          (Callbacks.confirmRecord c i st.data))] ∧
      (Callbacks.handle_callback c i today "sleep_confirm" (some st) ok e).store =
        none ∧
      (Callbacks.handle_callback c i today "sleep_confirm"
        (Callbacks.handle_callback c i today "sleep_confirm" (some st) ok e).store
        ok e).inserts = []) ∧
    (∀ (c i : String) (today : ℤ) (st : StateDict) (ok : Bool) (e : String),
      st.flow = some "food" → st.step = some "preview" →
      (Callbacks.handle_callback c i today "food_confirm" (some st) ok e).inserts =
        [("food", Callbacks.confirmRecord c i st.data)] ∧
      (Callbacks.handle_callback c i today "food_confirm" (some st) ok e).store =
        none ∧
      (Callbacks.handle_callback c i today "food_confirm"
        (Callbacks.handle_callback c i today "food_confirm" (some st) ok e).store
        ok e).inserts = []) ∧
    (exerciseSkipPreview.step = some "preview" ∧
     (Callbacks.handle_callback "77" "2026-10-12" 20000 "ex_confirm"
        (some exerciseSkipPreview) true "").inserts = [] ∧
     (Callbacks.handle_callback "77" "2026-10-12" 20000 "ex_confirm"
        (some exerciseSkipPreview) true "").store = some exerciseSkipPreview ∧
     (Callbacks.handle_callback "77" "2026-10-12" 20000 "ex_confirm"
        (some exerciseSkipPreview) true "").messages =
       [("Logging your workout now…", none)]) := by
  refine ⟨?_, ?_, by decide, by decide, by decide, by decide⟩
  · intro c i today st ok e hfl hstep
    have h1 := sleep_confirm_once c i today st ok e hfl hstep
    have hstore : (Callbacks.handle_callback c i today "sleep_confirm"
        (some st) ok e).store = none := by
      rw [h1]; cases ok <;> rfl
    refine ⟨?_, hstore, ?_⟩
    · rw [h1]; cases ok <;> rfl
    · rw [hstore, sleep_confirm_no_state]
  · intro c i today st ok e hfl hstep
    have h1 := food_confirm_once c i today st ok e hfl hstep
    have hstore : (Callbacks.handle_callback c i today "food_confirm"
        (some st) ok e).store = none := by
      rw [h1]; cases ok <;> rfl
    refine ⟨?_, hstore, ?_⟩
    · rw [h1]; cases ok <;> rfl
    · rw [hstore, food_confirm_no_state]

/-- C1 witness: a concrete sleep preview state inserts exactly once with
the stamped record and clears state, and the repeat tap inserts nothing. -/
theorem confirm_insert_behavior_witness :
    (Callbacks.handle_callback "77" "2026-10-12" 20000 "sleep_confirm"
      (some sleepSkipPreview) true "").inserts =
      [("sleep", Callbacks.attach_sleep_timestamps 20000
        (Callbacks.confirmRecord "77" "2026-10-12" sleepSkipPreview.data))] ∧
    (Callbacks.handle_callback "77" "2026-10-12" 20000 "sleep_confirm"
      (some sleepSkipPreview) true "").store = none ∧
    (Callbacks.handle_callback "77" "2026-10-12" 20000 "sleep_confirm"
      (Callbacks.handle_callback "77" "2026-10-12" 20000 "sleep_confirm"
        (some sleepSkipPreview) true "").store true "").inserts = [] :=
  confirm_insert_behavior.1 "77" "2026-10-12" 20000 sleepSkipPreview true ""
    (by decide) (by decide)

end Yaha
